import Mathlib

/-!
Shallow embedding of the kio-afp worker (`src/kafp_worker.cpp`, the current
implementation with circuit breaker and one-shot stale-session recovery).

The embedding models:
  * URL decomposition (`parseAfpUrl`, lines 101-155),
  * the error classifier (`mapAfpError` lines 588-626, `mapAfpConnectError`
    lines 628-648, `isRecoverableSessionError` lines 503-515),
  * session state and invalidation (`invalidateSessionState`, lines 487-501),
  * the connection coordinator (`ensureConnected`, lines 171-409) including
    the circuit-breaker checks, credential gathering and the connect/retry
    loop with exponential backoff,
  * volume attachment (`ensureAttached`, lines 411-485),
  * the shared one-shot recoverable-error retry pattern used by every
    filesystem operation (`opWithRecovery`; instances at lines 697-707
    (stat), 747-756 and 821-835 (listDir), 902-908 and 931-937 (get),
    993-999, 1011-1018, 1027-1034 and 1043-1050 (put), 1113-1119 (mkdir),
    1144-1153 (del), 1190-1197 (rename), 1219-1226 (chmod), 1244-1250
    (fileSystemFreeSpace)),
  * the operations `stat` (path branch), `del`, `rename` and `get`.

External collaborators (the afpsl client library, the KIO dispatcher, the
credential store and the interactive prompt) are represented as oracles:
result codes, handles and dialog outcomes supplied by the environment.
The advisory connect lock serializes processes but has no in-process
observable effect, so it is not modelled. Event traces record every
underlying library call and side effect the claims talk about.
-/

namespace KioAfp

/-- Result codes of the afpsl client library (AFP_SERVER_RESULT_*).
Codes never matched by name in the worker are collapsed into `other`. -/
inductive AfpResult where
  | okay
  | alreadyConnected
  | alreadyMounted
  | alreadyAttached
  | noAuthent
  | notConnected
  | notAttached
  | daemonError
  | noServer
  | timedOut
  | enoent
  | access
  | exist
  | novolume
  | notSupported
  | other (n : Int)
deriving DecidableEq, Repr

/-- KIO error codes used by the worker (KIO::ERR_*). -/
inductive KioErrCode where
  | errDoesNotExist
  | errAccessDenied
  | errFileAlreadyExist
  | errCannotConnect
  | errServerTimeout
  | errUnsupportedAction
  | errCannotAuthenticate
  | errInternal
  | errUserCanceled
  | errIsDirectory
  | errCannotWrite
deriving DecidableEq, Repr

/-- Observable actions: underlying library calls, data forwarded to the KIO
client, sleeps, and the coordination-file side effects. -/
inductive Event where
  | connectCall
  | disconnectCall
  | attachCall
  | getvolidCall
  | statCall
  | openCall
  | readCall (len : Nat)
  | closeCall
  | renameCall
  | unlinkCall
  | rmdirCall
  | dataChunk (n : Nat)
  | totalSizeHint (n : Nat)
  | sleepMs (n : Nat)
  | breakerUnlink
  | breakerWrite
  | promptDialog
  | invalidate
deriving DecidableEq, Repr

/-- The worker's cached session state (members of AfpWorker, lines 69-75).
Opaque serverid_t / volumeid_t handles are modelled as `Option Nat`
(`none` = nullptr). -/
structure WorkerState where
  connSetupDone : Bool
  cachedServer : String
  serverId : Option Nat
  cachedVolume : String
  volumeId : Option Nat
  cachedUser : String
  cachedPass : String
deriving DecidableEq, Repr

/-- State at worker-process start. -/
def initState : WorkerState :=
  { connSetupDone := false, cachedServer := "", serverId := none,
    cachedVolume := "", volumeId := none, cachedUser := "", cachedPass := "" }

/-- The field clearing shared by the server-switch branch (lines 181-186)
and `invalidateSessionState` (lines 495-500). -/
def clearSession (s : WorkerState) : WorkerState :=
  { s with serverId := none, cachedServer := "", cachedUser := "",
           cachedPass := "", volumeId := none, cachedVolume := "" }

/-- AfpWorker::invalidateSessionState (lines 487-501): best-effort disconnect
when a server handle is cached, then clear the whole session. -/
def invalidateSessionState (s : WorkerState) : WorkerState × List Event :=
  (clearSession s,
   Event.invalidate ::
     (if s.serverId.isSome then [Event.disconnectCall] else []))

/-- AfpWorker::isRecoverableSessionError (lines 503-515). -/
def isRecoverableSessionError (r : AfpResult) : Bool :=
  match r with
  | .notConnected | .notAttached | .daemonError | .noServer | .timedOut => true
  | _ => false

/-- AfpWorker::mapAfpError (lines 588-626), message strings omitted:
only the KIO error code is retained. `okay` maps to a passing result. -/
def mapAfpError (r : AfpResult) : Except KioErrCode Unit :=
  match r with
  | .okay => .ok ()
  | .enoent => .error .errDoesNotExist
  | .access => .error .errAccessDenied
  | .exist => .error .errFileAlreadyExist
  | .novolume => .error .errDoesNotExist
  | .noServer => .error .errCannotConnect
  | .timedOut => .error .errServerTimeout
  | .daemonError => .error .errCannotConnect
  | .notSupported => .error .errUnsupportedAction
  | .notConnected => .error .errCannotConnect
  | .notAttached => .error .errCannotConnect
  | .noAuthent => .error .errCannotAuthenticate
  | _ => .error .errInternal

/-- AfpWorker::mapAfpConnectError (lines 628-648), message strings omitted. -/
def mapAfpConnectError (r : AfpResult) : KioErrCode :=
  match r with
  | .noAuthent => .errCannotAuthenticate
  | .noServer => .errCannotConnect
  | .timedOut => .errServerTimeout
  | .daemonError => .errCannotConnect
  | _ => .errCannotConnect

/-- The relevant components of a QUrl as received by the worker. -/
structure Url where
  scheme : String
  host : String
  userName : String
  password : String
  port : Int
  path : String
deriving DecidableEq, Repr

/-- Split a character list at '/' separators. -/
def splitSlashAux : List Char → List Char → List (List Char)
  | [], acc => [acc.reverse]
  | c :: rest, acc =>
    if c = '/' then acc.reverse :: splitSlashAux rest []
    else splitSlashAux rest (c :: acc)

/-- QString::split(QLatin1Char('/'), Qt::SkipEmptyParts): split at every
'/' and drop the empty parts. -/
def splitSkipEmpty (s : String) : List String :=
  ((splitSlashAux s.data []).map (fun cs => String.mk cs)).filter
    (fun t => t ≠ "")

/-- struct ParsedUrl (lines 43-50) together with the `afp_url` fields the
worker fills in (servername, username, password, port, volumename, path).
`afpPath` is the `afpUrl.path` char array (absolute path within the
volume). -/
structure ParsedUrl where
  server : String
  username : String
  password : String
  port : Int
  volume : String
  path : String
  hasVolume : Bool
  hasPath : Bool
  afpPath : String
deriving DecidableEq, Repr

/-- AfpWorker::parseAfpUrl (lines 101-155). The default port 548 comes from
afp_default_url in the client library. -/
def parseAfpUrl (u : Url) : ParsedUrl :=
  let parts := splitSkipEmpty u.path
  let volume := match parts with | [] => "" | v :: _ => v
  let hasVolume := parts ≠ []
  let path :=
    if parts.length > 1 then String.intercalate "/" parts.tail else ""
  let hasPath := parts.length > 1
  let afpPath0 := if path ≠ "" then "/" ++ path else ""
  let afpPath := if hasVolume ∧ ¬hasPath then "/" else afpPath0
  { server := u.host
    username := u.userName
    password := u.password
    port := if u.port > 0 then u.port else 548
    volume := volume
    path := path
    hasVolume := hasVolume
    hasPath := hasPath
    afpPath := afpPath }

/-- Modelled from the spec: scheme routing is performed by the KIO framework,
which is not part of src/ — the worker registers for the single scheme
"afp" (line 55) and a wrong-scheme identifier is rejected by the framework
as an unsupported-operation error, never a connection error; an identifier
with the correct scheme is handed to `parseAfpUrl`, which never fails. -/
def decomposeTarget (u : Url) : Except KioErrCode ParsedUrl :=
  if u.scheme = "afp" then .ok (parseAfpUrl u)
  else .error .errUnsupportedAction

/-- constexpr int MAX_CONNECT_RETRIES = 3 (line 297). -/
def MAX_CONNECT_RETRIES : Nat := 3

/-- constexpr int BASE_RETRY_DELAY_MS = 500 (line 298). -/
def BASE_RETRY_DELAY_MS : Nat := 500

/-- constexpr int BREAKER_COOLDOWN_SECS = 30 (line 260). -/
def BREAKER_COOLDOWN_SECS : Int := 30

/-- Environment for one `ensureConnected` run: what the two circuit-breaker
file checks observe (marker mtime and current clock, lines 262-273 and
283-294), the credential cache, the successive password-dialog outcomes
(`none` = user cancelled), and the outcome of the k-th afp_sl_connect call
(result code and returned session handle). -/
structure ConnectEnv where
  breakerAtFirst : Option Int
  timeAtFirst : Int
  breakerAtSecond : Option Int
  timeAtSecond : Int
  cachedAuth : Option (String × String)
  dialogs : List (Option (String × String))
  connects : Nat → AfpResult × Option Nat

/-- Result of a connection-layer procedure: the worker result, the updated
session state, and the emitted event trace. -/
structure ConnOut where
  result : Except KioErrCode Unit
  state : WorkerState
  events : List Event

/-- The sanity check at lines 324-327: success (or "already connected")
with a null session handle is turned into a daemon error. -/
def effectiveRet (r : AfpResult) (sid : Option Nat) : AfpResult :=
  if (r = .okay ∨ r = .alreadyConnected) ∧ sid = none then .daemonError else r

/-- The result code of the k-th afp_sl_connect call after the null-handle
sanity check. -/
def connResult (connects : Nat → AfpResult × Option Nat) (k : Nat) : AfpResult :=
  effectiveRet (connects k).1 (connects k).2

/-- The connect/retry loop (lines 302-408), structurally recursive on a
fuel argument so that runs are kernel-computable. `k` is the index of the
next afp_sl_connect call, `dialogs` the remaining password-dialog outcomes,
`u`/`p` the credentials for the next attempt, `tr` the transient-retry
counter. An exhausted dialog script stands for a cancelled dialog.
Lock handling and deferred credential caching have no modelled effect.
The out-of-fuel arm is never reached from `connectLoop`: every iteration
either terminates, consumes a dialog outcome, or increments the bounded
transient counter. -/
def connectLoopF (connects : Nat → AfpResult × Option Nat) :
    Nat → Nat → List (Option (String × String)) → String → String → Nat →
    WorkerState → String → ConnOut
  | 0, _, _, _, _, _, s, _ =>
    { result := .error .errInternal, state := s, events := [] }
  | fuel + 1, k, dialogs, u, p, tr, s, server =>
    if connResult connects k = .okay ∨
       connResult connects k = .alreadyConnected then
      { result := .ok ()
        state := { s with serverId := (connects k).2, cachedServer := server,
                          cachedUser := u, cachedPass := p }
        events := [Event.connectCall, Event.breakerUnlink] }
    else if connResult connects k = .noAuthent then
      match dialogs with
      | some (u1, p1) :: rest =>
        { result := (connectLoopF connects fuel (k + 1) rest u1 p1 tr s server).result
          state := (connectLoopF connects fuel (k + 1) rest u1 p1 tr s server).state
          events := Event.connectCall :: Event.promptDialog ::
            (connectLoopF connects fuel (k + 1) rest u1 p1 tr s server).events }
      | _ =>
        { result := .error .errUserCanceled, state := s,
          events := [Event.connectCall, Event.promptDialog] }
    else if tr < MAX_CONNECT_RETRIES then
      { result := (connectLoopF connects fuel (k + 1) dialogs u p (tr + 1) s server).result
        state := (connectLoopF connects fuel (k + 1) dialogs u p (tr + 1) s server).state
        events := Event.connectCall ::
          Event.sleepMs (BASE_RETRY_DELAY_MS * 2 ^ tr) ::
          (connectLoopF connects fuel (k + 1) dialogs u p (tr + 1) s server).events }
    else
      { result := .error (mapAfpConnectError (connResult connects k)),
        state := s,
        events := [Event.connectCall, Event.breakerWrite] }

/-- The connect/retry loop with a fuel bound that strictly dominates its
lexicographic termination measure (dialogs consumed on re-prompts, the
transient counter bounded by MAX_CONNECT_RETRIES), so the out-of-fuel arm
of `connectLoopF` is unreachable. -/
def connectLoop (connects : Nat → AfpResult × Option Nat) (k : Nat)
    (dialogs : List (Option (String × String)))
    (u p : String) (tr : Nat) (s : WorkerState) (server : String) : ConnOut :=
  connectLoopF connects (dialogs.length * 4 + 4) k dialogs u p tr s server

/-- Enter the connect/retry loop, prefixing the events accumulated so far. -/
def connRunLoop (env : ConnectEnv) (pu : ParsedUrl) (s : WorkerState)
    (ev : List Event) (u p : String)
    (dialogs : List (Option (String × String))) : ConnOut :=
  let o := connectLoop env.connects 0 dialogs u p 0 s pu.server
  { result := o.result, state := o.state, events := ev ++ o.events }

/-- Second circuit-breaker check, after the lock is acquired (lines 283-294):
fail fast inside the cooldown, remove an expired marker. -/
def connSecondCheck (env : ConnectEnv) (pu : ParsedUrl) (s : WorkerState)
    (ev : List Event) (u p : String)
    (dialogs : List (Option (String × String))) : ConnOut :=
  match env.breakerAtSecond with
  | some m =>
    if env.timeAtSecond - m < BREAKER_COOLDOWN_SECS then
      { result := .error .errCannotConnect, state := s, events := ev }
    else
      connRunLoop env pu s (ev ++ [Event.breakerUnlink]) u p dialogs
  | none => connRunLoop env pu s ev u p dialogs

/-- First circuit-breaker check, before the lock (lines 262-273): fail fast
inside the cooldown, remove an expired marker and proceed. -/
def connFirstCheck (env : ConnectEnv) (pu : ParsedUrl) (s : WorkerState)
    (ev : List Event) (u p : String)
    (dialogs : List (Option (String × String))) : ConnOut :=
  match env.breakerAtFirst with
  | some m =>
    if env.timeAtFirst - m < BREAKER_COOLDOWN_SECS then
      { result := .error .errCannotConnect, state := s, events := ev }
    else
      connSecondCheck env pu s (ev ++ [Event.breakerUnlink]) u p dialogs
  | none => connSecondCheck env pu s ev u p dialogs

/-- Interactive prompt before connecting (lines 235-248): a cancelled dialog
aborts with ERR_USER_CANCELED. -/
def connPrompt (env : ConnectEnv) (pu : ParsedUrl) (s : WorkerState)
    (ev : List Event) : ConnOut :=
  match env.dialogs with
  | some (u, p) :: rest =>
    connFirstCheck env pu s (ev ++ [Event.promptDialog]) u p rest
  | _ =>
    { result := .error .errUserCanceled, state := s,
      events := ev ++ [Event.promptDialog] }

/-- Credential gathering (lines 219-248): URL credentials first, then the
cached credential store, then the interactive prompt. -/
def connGatherCreds (env : ConnectEnv) (pu : ParsedUrl) (s : WorkerState)
    (ev : List Event) : ConnOut :=
  if pu.username ≠ "" ∧ pu.password ≠ "" then
    connFirstCheck env pu s ev pu.username pu.password env.dialogs
  else
    match env.cachedAuth with
    | some (u, p) =>
      if u ≠ "" ∧ p ≠ "" then connFirstCheck env pu s ev u p env.dialogs
      else connPrompt env pu s ev
    | none => connPrompt env pu s ev

/-- AfpWorker::ensureConnected (lines 171-409). A cached session for the
same server is reused (the cached-credential copy into `pu` at lines
192-197 has no modelled effect); a cached session for a different server
is disconnected and fully cleared first. -/
def ensureConnected (env : ConnectEnv) (pu : ParsedUrl)
    (s0 : WorkerState) : ConnOut :=
  if s0.serverId.isSome then
    if s0.cachedServer ≠ pu.server then
      connGatherCreds env pu (clearSession { s0 with connSetupDone := true })
        [Event.disconnectCall]
    else
      { result := .ok (), state := { s0 with connSetupDone := true },
        events := [] }
  else
    connGatherCreds env pu { s0 with connSetupDone := true } []

/-- Environment for one `ensureAttached` run: outcomes of the (at most two)
afp_sl_attach and afp_sl_getvolid calls, and the environment for the
`ensureConnected` re-run inside the reset cycle. -/
structure AttachEnv where
  attach1 : AfpResult × Option Nat
  getvolid1 : AfpResult × Option Nat
  reconnectEnv : ConnectEnv
  attach2 : AfpResult × Option Nat
  getvolid2 : AfpResult × Option Nat

/-- Lines 440-441 / 468-469: the daemon reports the volume as already
mounted or already attached. -/
def isAlreadyAttachedResult (r : AfpResult) : Bool :=
  r = .alreadyMounted ∨ r = .alreadyAttached

/-- The disconnect-reconnect-reattach reset cycle inside ensureAttached
(lines 448-477), entered when the daemon reports the volume attached but
getvolid cannot produce a handle: disconnect, clear the server fields,
reconnect, re-attach, and resolve a renewed already-attached conflict with
one more getvolid. -/
def attachReset (aenv : AttachEnv) (pu : ParsedUrl) (s2 : WorkerState)
    (ev : List Event) : ConnOut :=
  match ensureConnected aenv.reconnectEnv pu
      { s2 with serverId := none, cachedServer := "" } with
  | ⟨.error e, st, ev2⟩ => { result := .error e, state := st, events := ev ++ ev2 }
  | ⟨.ok _, st, ev2⟩ =>
    if isAlreadyAttachedResult aenv.attach2.1 then
      if aenv.getvolid2.1 = .okay then
        { result := .ok ()
          state := { st with
                       volumeId := aenv.getvolid2.2
                       cachedVolume := pu.volume }
          events := ev ++ ev2 ++ [Event.attachCall, Event.getvolidCall] }
      else
        { result := mapAfpError aenv.getvolid2.1, state := st,
          events := ev ++ ev2 ++ [Event.attachCall, Event.getvolidCall] }
    else if aenv.attach2.1 = .okay then
      { result := .ok ()
        state := { st with
                     volumeId := aenv.attach2.2
                     cachedVolume := pu.volume }
        events := ev ++ ev2 ++ [Event.attachCall] }
    else
      { result := mapAfpError aenv.attach2.1, state := st,
        events := ev ++ ev2 ++ [Event.attachCall] }

/-- The attach step of ensureAttached (lines 431-485) once a server
connection is established: reuse a cached volume handle, otherwise attach,
resolving an already-attached conflict via getvolid and, if that fails,
the reset cycle. -/
def attachCore (aenv : AttachEnv) (pu : ParsedUrl) (s2 : WorkerState)
    (ev : List Event) : ConnOut :=
  if s2.volumeId.isSome then
    { result := .ok (), state := s2, events := ev }
  else if isAlreadyAttachedResult aenv.attach1.1 then
    if aenv.getvolid1.1 = .okay then
      { result := .ok ()
        state := { s2 with
                     volumeId := aenv.getvolid1.2
                     cachedVolume := pu.volume }
        events := ev ++ [Event.attachCall, Event.getvolidCall] }
    else
      attachReset aenv pu s2
        (ev ++ [Event.attachCall, Event.getvolidCall, Event.disconnectCall])
  else if aenv.attach1.1 = .okay then
    { result := .ok ()
      state := { s2 with
                   volumeId := aenv.attach1.2
                   cachedVolume := pu.volume }
      events := ev ++ [Event.attachCall] }
  else
    { result := mapAfpError aenv.attach1.1, state := s2,
      events := ev ++ [Event.attachCall] }

/-- AfpWorker::ensureAttached (lines 411-485): require a volume, ensure a
connection, clear only the volume portion on a volume switch (no detach,
lines 424-429), then attach via `attachCore`. -/
def ensureAttached (env : ConnectEnv) (aenv : AttachEnv) (pu : ParsedUrl)
    (s0 : WorkerState) : ConnOut :=
  if ¬pu.hasVolume then
    { result := .error .errDoesNotExist, state := s0, events := [] }
  else
    match ensureConnected env pu s0 with
    | ⟨.error e, st, ev⟩ => { result := .error e, state := st, events := ev }
    | ⟨.ok _, st, ev⟩ =>
      if st.volumeId.isSome ∧ st.cachedVolume ≠ pu.volume then
        attachCore aenv pu { st with volumeId := none, cachedVolume := "" } ev
      else
        attachCore aenv pu st ev

/-- Result of one filesystem operation: worker result, state, events, and
how many times the underlying call for the verb itself was issued. -/
structure OpOut where
  result : Except KioErrCode Unit
  state : WorkerState
  events : List Event
  opCalls : Nat

/-- Prefix an operation outcome with previously accumulated events. -/
def appendEvents (ev : List Event) (o : OpOut) : OpOut :=
  { result := o.result, state := o.state, events := ev ++ o.events,
    opCalls := o.opCalls }

/-- The one-shot stale-session recovery pattern shared verbatim by every
call site (e.g. stat, lines 697-707): issue the call; on a non-okay
recoverable result invalidate the whole session, re-establish the required
state, and retry the call exactly once; surface any failure of the second
attempt unchanged. `callEv` is the event of the underlying call,
`reestablish` the required ensureConnected/ensureAttached step, and
`firstRet`/`secondRet` the library results of the two call attempts. -/
def opWithRecovery (callEv : Event) (reestablish : WorkerState → ConnOut)
    (s : WorkerState) (firstRet secondRet : AfpResult) : OpOut :=
  if firstRet ≠ .okay ∧ isRecoverableSessionError firstRet = true then
    match reestablish (invalidateSessionState s).1 with
    | ⟨.error e, st, ev2⟩ =>
      { result := .error e, state := st,
        events := callEv :: (invalidateSessionState s).2 ++ ev2, opCalls := 1 }
    | ⟨.ok _, st, ev2⟩ =>
      { result := mapAfpError secondRet, state := st,
        events := callEv :: (invalidateSessionState s).2 ++ ev2 ++ [callEv],
        opCalls := 2 }
  else
    { result := mapAfpError firstRet, state := s,
      events := [callEv], opCalls := 1 }

/-- AfpWorker::stat, path-within-volume branch (lines 692-707): attach, then
a metadata query under the shared recovery pattern. UDSEntry synthesis is
not modelled. -/
def statPathOp (env : ConnectEnv) (aenv : AttachEnv) (u : Url)
    (s : WorkerState) (firstRet secondRet : AfpResult) : OpOut :=
  match ensureAttached env aenv (parseAfpUrl u) s with
  | ⟨.error e, st, ev⟩ => { result := .error e, state := st,
                            events := ev, opCalls := 0 }
  | ⟨.ok _, st, ev⟩ =>
    appendEvents ev
      (opWithRecovery Event.statCall (ensureAttached env aenv (parseAfpUrl u))
        st firstRet secondRet)

/-- AfpWorker::del (lines 1126-1159): reject volume and server roots before
anything else, then unlink/rmdir under the shared recovery pattern. -/
def del (env : ConnectEnv) (aenv : AttachEnv) (u : Url) (isFile : Bool)
    (s : WorkerState) (firstRet secondRet : AfpResult) : OpOut :=
  if ¬(parseAfpUrl u).hasPath then
    { result := .error .errAccessDenied, state := s, events := [],
      opCalls := 0 }
  else
    match ensureAttached env aenv (parseAfpUrl u) s with
    | ⟨.error e, st, ev⟩ => { result := .error e, state := st,
                              events := ev, opCalls := 0 }
    | ⟨.ok _, st, ev⟩ =>
      appendEvents ev
        (opWithRecovery (if isFile then Event.unlinkCall else Event.rmdirCall)
          (ensureAttached env aenv (parseAfpUrl u)) st firstRet secondRet)

/-- AfpWorker::rename (lines 1161-1202): reject roots and cross-volume
renames before any call; without the Overwrite flag first check the
destination with a plain metadata query (`destStatRet`); then rename under
the shared recovery pattern. -/
def rename (env : ConnectEnv) (aenv : AttachEnv) (src dest : Url)
    (overwrite : Bool) (s : WorkerState) (destStatRet : AfpResult)
    (firstRet secondRet : AfpResult) : OpOut :=
  if ¬(parseAfpUrl src).hasPath ∨ ¬(parseAfpUrl dest).hasPath then
    { result := .error .errUnsupportedAction, state := s,
      events := [], opCalls := 0 }
  else if (parseAfpUrl src).server ≠ (parseAfpUrl dest).server ∨
          (parseAfpUrl src).volume ≠ (parseAfpUrl dest).volume then
    { result := .error .errUnsupportedAction, state := s,
      events := [], opCalls := 0 }
  else
    match ensureAttached env aenv (parseAfpUrl src) s with
    | ⟨.error e, st, ev⟩ => { result := .error e, state := st,
                              events := ev, opCalls := 0 }
    | ⟨.ok _, st, ev⟩ =>
      if ¬overwrite ∧ destStatRet = .okay then
        { result := .error .errFileAlreadyExist, state := st,
          events := ev ++ [Event.statCall], opCalls := 0 }
      else
        appendEvents (ev ++ (if overwrite then [] else [Event.statCall]))
          (opWithRecovery Event.renameCall
            (ensureAttached env aenv (parseAfpUrl src)) st firstRet secondRet)

/-- static constexpr unsigned int READ_CHUNK = 64 * 1024 (line 41). -/
def READ_CHUNK : Nat := 65536

/-- Outcome of one afp_sl_read call: result code, bytes received, and the
end-of-file flag. -/
structure ReadResult where
  ret : AfpResult
  received : Nat
  eofFlag : Bool
deriving DecidableEq, Repr

/-- The read loop of AfpWorker::get (lines 944-968), driven by a script of
afp_sl_read outcomes. Returns the loop's result, the total number of bytes
forwarded via data(), and the events. An exhausted script stands for a
zero-length read (which ends the loop). On a read error the file is closed
and the mapped error returned — no recovery. -/
def getReadLoop (reads : List ReadResult) :
    Except KioErrCode Unit × Nat × List Event :=
  match reads with
  | [] => (.ok (), 0, [Event.readCall READ_CHUNK])
  | r :: rest =>
    if r.ret ≠ .okay then
      (mapAfpError r.ret, 0, [Event.readCall READ_CHUNK, Event.closeCall])
    else
      if r.eofFlag ∨ r.received = 0 then
        (.ok (), r.received, Event.readCall READ_CHUNK ::
          (if r.received > 0 then [Event.dataChunk r.received] else []))
      else
        ((getReadLoop rest).1,
         r.received + (getReadLoop rest).2.1,
         Event.readCall READ_CHUNK ::
           (if r.received > 0 then [Event.dataChunk r.received] else []) ++
           (getReadLoop rest).2.2)

/-- Modelled from the spec: the consumed library contract for
read(handle, fileId, offset, length) on a file of size n (§6) — each call
returns min(length, remaining) bytes and sets the end-of-file flag when the
file is exhausted. The library implementation is not part of src/.
Structurally recursive on a fuel argument; the out-of-fuel arm is never
reached from `conformingReads` since every step shrinks the remaining byte
count by at least one full chunk. -/
def conformingReadsF : Nat → Nat → List ReadResult
  | 0, _ => []
  | fuel + 1, n =>
    if n = 0 then [{ ret := .okay, received := 0, eofFlag := true }]
    else
      { ret := .okay, received := min READ_CHUNK n,
        eofFlag := decide (n ≤ READ_CHUNK) } ::
      (if n ≤ READ_CHUNK then [] else conformingReadsF fuel (n - READ_CHUNK))

/-- The conforming read script for a file of n bytes. -/
def conformingReads (n : Nat) : List ReadResult :=
  conformingReadsF (n + 1) n

/-- The open-and-stream phase of AfpWorker::get after a successful stat
(lines 928-973): open read-only under the recovery pattern, run the read
loop, close, and signal completion with an empty data chunk. -/
def getAfterOpen (env : ConnectEnv) (aenv : AttachEnv) (u : Url)
    (st1 : WorkerState) (openFirst openSecond : AfpResult)
    (reads : List ReadResult) : OpOut :=
  match opWithRecovery Event.openCall
      (ensureAttached env aenv (parseAfpUrl u)) st1 openFirst openSecond with
  | ⟨.error e, st2, ev2, _⟩ =>
    { result := .error e, state := st2, events := ev2, opCalls := 0 }
  | ⟨.ok _, st2, ev2, _⟩ =>
    match getReadLoop reads with
    | (.error e, _, rev) =>
      { result := .error e, state := st2, events := ev2 ++ rev, opCalls := 0 }
    | (.ok _, _, rev) =>
      { result := .ok (), state := st2,
        events := ev2 ++ rev ++ [Event.closeCall, Event.dataChunk 0],
        opCalls := 0 }

/-- The metadata phase of AfpWorker::get (lines 899-926): stat under the
recovery pattern, reject directories, report the total-size hint. -/
def getAfterAttach (env : ConnectEnv) (aenv : AttachEnv) (u : Url)
    (st : WorkerState) (statFirst statSecond : AfpResult) (fileSize : Nat)
    (fileIsDir : Bool) (openFirst openSecond : AfpResult)
    (reads : List ReadResult) : OpOut :=
  match opWithRecovery Event.statCall
      (ensureAttached env aenv (parseAfpUrl u)) st statFirst statSecond with
  | ⟨.error e, st1, ev1, _⟩ =>
    { result := .error e, state := st1, events := ev1, opCalls := 0 }
  | ⟨.ok _, st1, ev1, _⟩ =>
    if fileIsDir then
      { result := .error .errIsDirectory, state := st1, events := ev1,
        opCalls := 0 }
    else
      appendEvents (ev1 ++ [Event.totalSizeHint fileSize])
        (getAfterOpen env aenv u st1 openFirst openSecond reads)

/-- AfpWorker::get (lines 886-974): require a path, attach, then the
metadata and streaming phases. MIME-type detection is not modelled. -/
def get (env : ConnectEnv) (aenv : AttachEnv) (u : Url) (s : WorkerState)
    (statFirst statSecond : AfpResult) (fileSize : Nat) (fileIsDir : Bool)
    (openFirst openSecond : AfpResult) (reads : List ReadResult) : OpOut :=
  if ¬(parseAfpUrl u).hasPath then
    { result := .error .errIsDirectory, state := s, events := [],
      opCalls := 0 }
  else
    match ensureAttached env aenv (parseAfpUrl u) s with
    | ⟨.error e, st, ev⟩ => { result := .error e, state := st,
                              events := ev, opCalls := 0 }
    | ⟨.ok _, st, ev⟩ =>
      appendEvents ev
        (getAfterAttach env aenv u st statFirst statSecond fileSize fileIsDir
          openFirst openSecond reads)

/-- The session-state invariant: a non-null cached volume handle implies a
non-null cached server handle and a non-empty cached volume name. -/
def sessionInv (s : WorkerState) : Prop :=
  s.volumeId.isSome → (s.serverId.isSome ∧ s.cachedVolume ≠ "")

/-- Events that the connection layer (`connectLoop`) can emit. -/
def connLoopEvent (e : Event) : Bool :=
  match e with
  | .connectCall | .promptDialog | .breakerWrite | .breakerUnlink
  | .sleepMs _ => true
  | _ => false

/-- Events that `ensureConnected` and `ensureAttached` can emit: the
connection-layer events plus disconnect, attach and getvolid calls. -/
def attachLevelEvent (e : Event) : Bool :=
  match e with
  | .connectCall | .promptDialog | .breakerWrite | .breakerUnlink
  | .sleepMs _ | .disconnectCall | .attachCall | .getvolidCall => true
  | _ => false

/-- A connect outcome that the loop treats as transient: neither a success
with a handle, nor an authentication failure. -/
def isTransientOutcome (o : AfpResult × Option Nat) : Bool :=
  match effectiveRet o.1 o.2 with
  | .okay | .alreadyConnected | .noAuthent => false
  | _ => true

/-- A benign connect environment for concrete runs: no breaker marker, no
cached credentials, no dialogs, every connect succeeds with handle 1. -/
def envOk : ConnectEnv :=
  { breakerAtFirst := none, timeAtFirst := 0,
    breakerAtSecond := none, timeAtSecond := 0,
    cachedAuth := none, dialogs := [],
    connects := fun _ => (.okay, some 1) }

/-- A benign attach environment: every attach succeeds with handle 2. -/
def aenvOk : AttachEnv :=
  { attach1 := (.okay, some 2), getvolid1 := (.okay, some 2),
    reconnectEnv := envOk,
    attach2 := (.okay, some 2), getvolid2 := (.okay, some 2) }

/-- A URL with an empty host, a volume and a path, with inline credentials. -/
def urlEmptyHost : Url :=
  { scheme := "afp", host := "", userName := "alice", password := "pw",
    port := 0, path := "/Vol/x" }

/-- A URL for server h, volume V, path a/b. -/
def urlHVab : Url :=
  { scheme := "afp", host := "h", userName := "alice", password := "pw",
    port := 0, path := "/V/a/b" }

/-- A URL for server h, volume V only (volume root). -/
def urlHV : Url :=
  { scheme := "afp", host := "h", userName := "alice", password := "pw",
    port := 0, path := "/V" }

/-- A URL for server h with no path segments (server root). -/
def urlH : Url :=
  { scheme := "afp", host := "h", userName := "alice", password := "pw",
    port := 0, path := "/" }

/-- A URL for server h, volume W, path a/b (other volume). -/
def urlHWab : Url :=
  { scheme := "afp", host := "h", userName := "alice", password := "pw",
    port := 0, path := "/W/a/b" }

/-- A URL for server h, volume V, path c (rename destination). -/
def urlHVc : Url :=
  { scheme := "afp", host := "h", userName := "alice", password := "pw",
    port := 0, path := "/V/c" }

/-- A URL with a scheme other than afp. -/
def urlBadScheme : Url :=
  { scheme := "smb", host := "h", userName := "alice", password := "pw",
    port := 0, path := "/V/a/b" }

/-- A re-establish oracle that always succeeds without touching the state. -/
def reOk : WorkerState → ConnOut :=
  fun st => { result := .ok (), state := st, events := [] }

/-- A connect environment whose first breaker check sees a fresh marker
(age 10 s, inside the 30 s cooldown). -/
def envBreakerFresh : ConnectEnv :=
  { envOk with breakerAtFirst := some 100, timeAtFirst := 110 }

/-- A connect environment whose first check sees no marker but whose second
check (after the lock) sees a fresh marker. -/
def envBreakerSecond : ConnectEnv :=
  { envOk with breakerAtSecond := some 100, timeAtSecond := 110 }

/-- A connect environment whose first breaker check sees an expired marker
(age 50 s, past the 30 s cooldown). -/
def envBreakerExpired : ConnectEnv :=
  { envOk with breakerAtFirst := some 100, timeAtFirst := 150 }

/-- A connect-call oracle that always times out. -/
def connectsTimeout : Nat → AfpResult × Option Nat :=
  fun _ => (.timedOut, none)

/-- A worker state with a live server session for host h and a stale cached
volume name but no volume handle (as left behind by an attach that
reported OKAY with a null volume handle). -/
def stateStaleVol : WorkerState :=
  { connSetupDone := true, cachedServer := "h", serverId := some 1,
    cachedVolume := "V", volumeId := none, cachedUser := "alice",
    cachedPass := "pw" }

/-- An attach environment that drives ensureAttached into the reset cycle:
the attach reports already-attached with no handle, getvolid fails with a
daemon error, and the reconnect inside the reset hits a fresh breaker
marker and fails. -/
def aenvReset : AttachEnv :=
  { attach1 := (.alreadyAttached, none), getvolid1 := (.daemonError, none),
    reconnectEnv := envBreakerFresh,
    attach2 := (.okay, some 2), getvolid2 := (.okay, some 2) }

/-- Events that the read loop of `get` can emit: read calls, forwarded
data chunks and the closing call — in particular no invalidation and no
connect or attach call. -/
def readLoopEvent (e : Event) : Bool :=
  match e with
  | .readCall L => decide (L = READ_CHUNK)
  | .dataChunk _ | .closeCall => true
  | _ => false

/-!  Helper lemmas about the connect/retry loop.  -/

theorem connResult_ok_sid (connects : Nat → AfpResult × Option Nat) (k : Nat)
    (h : connResult connects k = .okay ∨
         connResult connects k = .alreadyConnected) :
    ((connects k).2).isSome = true := by
  by_cases hs : (connects k).2 = none
  · simp [connResult, effectiveRet, hs] at h
    rcases h with h | h <;> split at h <;> simp_all
  · cases hc : (connects k).2 with
    | none => exact absurd hc hs
    | some v => simp

theorem connectLoopF_volumeId (connects : Nat → AfpResult × Option Nat) :
    ∀ fuel k dialogs u p tr s server,
    (connectLoopF connects fuel k dialogs u p tr s server).state.volumeId
      = s.volumeId := by
  intro fuel
  induction fuel with
  | zero => intros; rfl
  | succ f ih =>
    intro k dialogs u p tr s server
    simp only [connectLoopF]
    split
    · rfl
    · split
      · split
        · simp [ih]
        · rfl
      · split
        · simp [ih]
        · rfl

theorem connectLoop_volumeId (connects : Nat → AfpResult × Option Nat)
    (k : Nat) (dialogs : List (Option (String × String))) (u p : String)
    (tr : Nat) (s : WorkerState) (server : String) :
    (connectLoop connects k dialogs u p tr s server).state.volumeId
      = s.volumeId :=
  connectLoopF_volumeId connects _ k dialogs u p tr s server

theorem connectLoopF_cachedVolume (connects : Nat → AfpResult × Option Nat) :
    ∀ fuel k dialogs u p tr s server,
    (connectLoopF connects fuel k dialogs u p tr s server).state.cachedVolume
      = s.cachedVolume := by
  intro fuel
  induction fuel with
  | zero => intros; rfl
  | succ f ih =>
    intro k dialogs u p tr s server
    simp only [connectLoopF]
    split
    · rfl
    · split
      · split
        · simp [ih]
        · rfl
      · split
        · simp [ih]
        · rfl

theorem connectLoopF_ok_serverId (connects : Nat → AfpResult × Option Nat) :
    ∀ fuel k dialogs u p tr s server,
    (connectLoopF connects fuel k dialogs u p tr s server).result = .ok () →
    (connectLoopF connects fuel k dialogs u p tr s
        server).state.serverId.isSome = true := by
  intro fuel
  induction fuel with
  | zero => intro _ _ _ _ _ _ _ h; simp [connectLoopF] at h
  | succ f ih =>
    intro k dialogs u p tr s server
    simp only [connectLoopF]
    split
    · rename_i hsucc
      intro _
      exact connResult_ok_sid connects k hsucc
    · split
      · split
        · simp only
          exact ih _ _ _ _ _ _ _
        · intro h; simp at h
      · split
        · simp only
          exact ih _ _ _ _ _ _ _
        · intro h; simp at h

theorem connectLoop_ok_serverId (connects : Nat → AfpResult × Option Nat)
    (k : Nat) (dialogs : List (Option (String × String))) (u p : String)
    (tr : Nat) (s : WorkerState) (server : String) :
    (connectLoop connects k dialogs u p tr s server).result = .ok () →
    (connectLoop connects k dialogs u p tr s server).state.serverId.isSome
      = true :=
  connectLoopF_ok_serverId connects _ k dialogs u p tr s server

theorem connectLoopF_ok_unlink (connects : Nat → AfpResult × Option Nat) :
    ∀ fuel k dialogs u p tr s server,
    (connectLoopF connects fuel k dialogs u p tr s server).result = .ok () →
    Event.breakerUnlink ∈
      (connectLoopF connects fuel k dialogs u p tr s server).events := by
  intro fuel
  induction fuel with
  | zero => intro _ _ _ _ _ _ _ h; simp [connectLoopF] at h
  | succ f ih =>
    intro k dialogs u p tr s server
    simp only [connectLoopF]
    split
    · intro _; simp
    · split
      · split
        · intro h
          simp only [List.mem_cons]
          right; right
          exact ih _ _ _ _ _ _ _ h
        · intro h; simp at h
      · split
        · intro h
          simp only [List.mem_cons]
          right; right
          exact ih _ _ _ _ _ _ _ h
        · intro h; simp at h

theorem connectLoop_ok_unlink (connects : Nat → AfpResult × Option Nat)
    (k : Nat) (dialogs : List (Option (String × String))) (u p : String)
    (tr : Nat) (s : WorkerState) (server : String) :
    (connectLoop connects k dialogs u p tr s server).result = .ok () →
    Event.breakerUnlink ∈
      (connectLoop connects k dialogs u p tr s server).events :=
  connectLoopF_ok_unlink connects _ k dialogs u p tr s server

theorem connectLoopF_events (connects : Nat → AfpResult × Option Nat) :
    ∀ fuel k dialogs u p tr s server,
    ∀ e ∈ (connectLoopF connects fuel k dialogs u p tr s server).events,
    connLoopEvent e = true := by
  intro fuel
  induction fuel with
  | zero => intro _ _ _ _ _ _ _ e he; simp [connectLoopF] at he
  | succ f ih =>
    intro k dialogs u p tr s server
    simp only [connectLoopF]
    split
    · intro e he
      simp at he
      rcases he with he | he <;> simp [he, connLoopEvent]
    · split
      · split
        · intro e he
          simp only [List.mem_cons] at he
          rcases he with he | he | he
          · simp [he, connLoopEvent]
          · simp [he, connLoopEvent]
          · exact ih _ _ _ _ _ _ _ e he
        · intro e he
          simp at he
          rcases he with he | he <;> simp [he, connLoopEvent]
      · split
        · intro e he
          simp only [List.mem_cons] at he
          rcases he with he | he | he
          · simp [he, connLoopEvent]
          · simp [he, connLoopEvent]
          · exact ih _ _ _ _ _ _ _ e he
        · intro e he
          simp at he
          rcases he with he | he <;> simp [he, connLoopEvent]

theorem connectLoop_events (connects : Nat → AfpResult × Option Nat)
    (k : Nat) (dialogs : List (Option (String × String))) (u p : String)
    (tr : Nat) (s : WorkerState) (server : String) :
    ∀ e ∈ (connectLoop connects k dialogs u p tr s server).events,
    connLoopEvent e = true :=
  connectLoopF_events connects _ k dialogs u p tr s server

theorem connLoopEvent_attach (e : Event) (h : connLoopEvent e = true) :
    attachLevelEvent e = true := by
  cases e <;> simp_all [connLoopEvent, attachLevelEvent]

/-!  Lemmas lifting the loop facts through the breaker checks, the prompt
and credential gathering up to `ensureConnected`.  -/

theorem connRunLoop_volumeId (env : ConnectEnv) (pu : ParsedUrl)
    (s : WorkerState) (ev : List Event) (u p : String)
    (ds : List (Option (String × String))) :
    (connRunLoop env pu s ev u p ds).state.volumeId = s.volumeId := by
  simpa [connRunLoop] using connectLoop_volumeId env.connects 0 ds u p 0 s pu.server

theorem connRunLoop_ok_serverId (env : ConnectEnv) (pu : ParsedUrl)
    (s : WorkerState) (ev : List Event) (u p : String)
    (ds : List (Option (String × String)))
    (h : (connRunLoop env pu s ev u p ds).result = .ok ()) :
    (connRunLoop env pu s ev u p ds).state.serverId.isSome = true := by
  simp only [connRunLoop] at h ⊢
  exact connectLoop_ok_serverId env.connects 0 ds u p 0 s pu.server h

theorem connRunLoop_ok_unlink (env : ConnectEnv) (pu : ParsedUrl)
    (s : WorkerState) (ev : List Event) (u p : String)
    (ds : List (Option (String × String)))
    (h : (connRunLoop env pu s ev u p ds).result = .ok ()) :
    Event.breakerUnlink ∈ (connRunLoop env pu s ev u p ds).events := by
  simp only [connRunLoop] at h ⊢
  exact List.mem_append_right ev
    (connectLoop_ok_unlink env.connects 0 ds u p 0 s pu.server h)

theorem connRunLoop_events (env : ConnectEnv) (pu : ParsedUrl)
    (s : WorkerState) (ev : List Event) (u p : String)
    (ds : List (Option (String × String)))
    (hev : ∀ e ∈ ev, attachLevelEvent e = true) :
    ∀ e ∈ (connRunLoop env pu s ev u p ds).events,
      attachLevelEvent e = true := by
  simp only [connRunLoop]
  intro e he
  rcases List.mem_append.mp he with h | h
  · exact hev e h
  · exact connLoopEvent_attach e
      (connectLoop_events env.connects 0 ds u p 0 s pu.server e h)

theorem connSecondCheck_volumeId (env : ConnectEnv) (pu : ParsedUrl)
    (s : WorkerState) (ev : List Event) (u p : String)
    (ds : List (Option (String × String))) :
    (connSecondCheck env pu s ev u p ds).state.volumeId = s.volumeId := by
  unfold connSecondCheck
  split
  · split
    · rfl
    · exact connRunLoop_volumeId ..
  · exact connRunLoop_volumeId ..

theorem connectLoop_cachedVolume (connects : Nat → AfpResult × Option Nat)
    (k : Nat) (dialogs : List (Option (String × String))) (u p : String)
    (tr : Nat) (s : WorkerState) (server : String) :
    (connectLoop connects k dialogs u p tr s server).state.cachedVolume
      = s.cachedVolume :=
  connectLoopF_cachedVolume connects _ k dialogs u p tr s server

theorem connRunLoop_cachedVolume (env : ConnectEnv) (pu : ParsedUrl)
    (s : WorkerState) (ev : List Event) (u p : String)
    (ds : List (Option (String × String))) :
    (connRunLoop env pu s ev u p ds).state.cachedVolume = s.cachedVolume := by
  simpa [connRunLoop] using
    connectLoop_cachedVolume env.connects 0 ds u p 0 s pu.server

theorem connSecondCheck_cachedVolume (env : ConnectEnv) (pu : ParsedUrl)
    (s : WorkerState) (ev : List Event) (u p : String)
    (ds : List (Option (String × String))) :
    (connSecondCheck env pu s ev u p ds).state.cachedVolume
      = s.cachedVolume := by
  unfold connSecondCheck
  split
  · split
    · rfl
    · exact connRunLoop_cachedVolume ..
  · exact connRunLoop_cachedVolume ..

theorem connFirstCheck_cachedVolume (env : ConnectEnv) (pu : ParsedUrl)
    (s : WorkerState) (ev : List Event) (u p : String)
    (ds : List (Option (String × String))) :
    (connFirstCheck env pu s ev u p ds).state.cachedVolume
      = s.cachedVolume := by
  unfold connFirstCheck
  split
  · split
    · rfl
    · exact connSecondCheck_cachedVolume ..
  · exact connSecondCheck_cachedVolume ..

theorem connPrompt_cachedVolume (env : ConnectEnv) (pu : ParsedUrl)
    (s : WorkerState) (ev : List Event) :
    (connPrompt env pu s ev).state.cachedVolume = s.cachedVolume := by
  unfold connPrompt
  split
  · exact connFirstCheck_cachedVolume ..
  · rfl

theorem connGatherCreds_cachedVolume (env : ConnectEnv) (pu : ParsedUrl)
    (s : WorkerState) (ev : List Event) :
    (connGatherCreds env pu s ev).state.cachedVolume = s.cachedVolume := by
  unfold connGatherCreds
  split
  · exact connFirstCheck_cachedVolume ..
  · split
    · split
      · exact connFirstCheck_cachedVolume ..
      · exact connPrompt_cachedVolume ..
    · exact connPrompt_cachedVolume ..

theorem ensureConnected_cachedVolume_noSrv (env : ConnectEnv)
    (pu : ParsedUrl) (s0 : WorkerState) (h : s0.serverId = none) :
    (ensureConnected env pu s0).state.cachedVolume = s0.cachedVolume := by
  unfold ensureConnected
  rw [if_neg (by simp [h])]
  exact connGatherCreds_cachedVolume ..

theorem connSecondCheck_ok_serverId (env : ConnectEnv) (pu : ParsedUrl)
    (s : WorkerState) (ev : List Event) (u p : String)
    (ds : List (Option (String × String))) :
    (connSecondCheck env pu s ev u p ds).result = .ok () →
    (connSecondCheck env pu s ev u p ds).state.serverId.isSome = true := by
  unfold connSecondCheck
  split
  · split
    · intro h; simp at h
    · exact connRunLoop_ok_serverId _ _ _ _ _ _ _
  · exact connRunLoop_ok_serverId _ _ _ _ _ _ _

theorem connSecondCheck_ok_unlink (env : ConnectEnv) (pu : ParsedUrl)
    (s : WorkerState) (ev : List Event) (u p : String)
    (ds : List (Option (String × String))) :
    (connSecondCheck env pu s ev u p ds).result = .ok () →
    Event.breakerUnlink ∈ (connSecondCheck env pu s ev u p ds).events := by
  unfold connSecondCheck
  split
  · split
    · intro h; simp at h
    · exact connRunLoop_ok_unlink _ _ _ _ _ _ _
  · exact connRunLoop_ok_unlink _ _ _ _ _ _ _

theorem connSecondCheck_events (env : ConnectEnv) (pu : ParsedUrl)
    (s : WorkerState) (ev : List Event) (u p : String)
    (ds : List (Option (String × String)))
    (hev : ∀ e ∈ ev, attachLevelEvent e = true) :
    ∀ e ∈ (connSecondCheck env pu s ev u p ds).events,
      attachLevelEvent e = true := by
  have hev1 : ∀ e ∈ ev ++ [Event.breakerUnlink], attachLevelEvent e = true := by
    intro e he
    rcases List.mem_append.mp he with h | h
    · exact hev e h
    · simp at h
      simp [h, attachLevelEvent]
  unfold connSecondCheck
  split
  · split
    · exact hev
    · exact connRunLoop_events _ _ _ _ _ _ _ hev1
  · exact connRunLoop_events _ _ _ _ _ _ _ hev

theorem connFirstCheck_volumeId (env : ConnectEnv) (pu : ParsedUrl)
    (s : WorkerState) (ev : List Event) (u p : String)
    (ds : List (Option (String × String))) :
    (connFirstCheck env pu s ev u p ds).state.volumeId = s.volumeId := by
  unfold connFirstCheck
  split
  · split
    · rfl
    · exact connSecondCheck_volumeId ..
  · exact connSecondCheck_volumeId ..

theorem connFirstCheck_ok_serverId (env : ConnectEnv) (pu : ParsedUrl)
    (s : WorkerState) (ev : List Event) (u p : String)
    (ds : List (Option (String × String))) :
    (connFirstCheck env pu s ev u p ds).result = .ok () →
    (connFirstCheck env pu s ev u p ds).state.serverId.isSome = true := by
  unfold connFirstCheck
  split
  · split
    · intro h; simp at h
    · exact connSecondCheck_ok_serverId _ _ _ _ _ _ _
  · exact connSecondCheck_ok_serverId _ _ _ _ _ _ _

theorem connFirstCheck_ok_unlink (env : ConnectEnv) (pu : ParsedUrl)
    (s : WorkerState) (ev : List Event) (u p : String)
    (ds : List (Option (String × String))) :
    (connFirstCheck env pu s ev u p ds).result = .ok () →
    Event.breakerUnlink ∈ (connFirstCheck env pu s ev u p ds).events := by
  unfold connFirstCheck
  split
  · split
    · intro h; simp at h
    · exact connSecondCheck_ok_unlink _ _ _ _ _ _ _
  · exact connSecondCheck_ok_unlink _ _ _ _ _ _ _

theorem connFirstCheck_events (env : ConnectEnv) (pu : ParsedUrl)
    (s : WorkerState) (ev : List Event) (u p : String)
    (ds : List (Option (String × String)))
    (hev : ∀ e ∈ ev, attachLevelEvent e = true) :
    ∀ e ∈ (connFirstCheck env pu s ev u p ds).events,
      attachLevelEvent e = true := by
  have hev1 : ∀ e ∈ ev ++ [Event.breakerUnlink], attachLevelEvent e = true := by
    intro e he
    rcases List.mem_append.mp he with h | h
    · exact hev e h
    · simp at h
      simp [h, attachLevelEvent]
  unfold connFirstCheck
  split
  · split
    · exact hev
    · exact connSecondCheck_events _ _ _ _ _ _ _ hev1
  · exact connSecondCheck_events _ _ _ _ _ _ _ hev

theorem connPrompt_volumeId (env : ConnectEnv) (pu : ParsedUrl)
    (s : WorkerState) (ev : List Event) :
    (connPrompt env pu s ev).state.volumeId = s.volumeId := by
  unfold connPrompt
  split
  · exact connFirstCheck_volumeId ..
  · rfl

theorem connPrompt_ok_serverId (env : ConnectEnv) (pu : ParsedUrl)
    (s : WorkerState) (ev : List Event) :
    (connPrompt env pu s ev).result = .ok () →
    (connPrompt env pu s ev).state.serverId.isSome = true := by
  unfold connPrompt
  split
  · exact connFirstCheck_ok_serverId _ _ _ _ _ _ _
  · intro h; simp at h

theorem connPrompt_ok_unlink (env : ConnectEnv) (pu : ParsedUrl)
    (s : WorkerState) (ev : List Event) :
    (connPrompt env pu s ev).result = .ok () →
    Event.breakerUnlink ∈ (connPrompt env pu s ev).events := by
  unfold connPrompt
  split
  · exact connFirstCheck_ok_unlink _ _ _ _ _ _ _
  · intro h; simp at h

theorem connPrompt_events (env : ConnectEnv) (pu : ParsedUrl)
    (s : WorkerState) (ev : List Event)
    (hev : ∀ e ∈ ev, attachLevelEvent e = true) :
    ∀ e ∈ (connPrompt env pu s ev).events, attachLevelEvent e = true := by
  have hev1 : ∀ e ∈ ev ++ [Event.promptDialog], attachLevelEvent e = true := by
    intro e he
    rcases List.mem_append.mp he with h | h
    · exact hev e h
    · simp at h
      simp [h, attachLevelEvent]
  unfold connPrompt
  split
  · exact connFirstCheck_events _ _ _ _ _ _ _ hev1
  · exact hev1

theorem connGatherCreds_volumeId (env : ConnectEnv) (pu : ParsedUrl)
    (s : WorkerState) (ev : List Event) :
    (connGatherCreds env pu s ev).state.volumeId = s.volumeId := by
  unfold connGatherCreds
  split
  · exact connFirstCheck_volumeId ..
  · split
    · split
      · exact connFirstCheck_volumeId ..
      · exact connPrompt_volumeId ..
    · exact connPrompt_volumeId ..

theorem connGatherCreds_ok_serverId (env : ConnectEnv) (pu : ParsedUrl)
    (s : WorkerState) (ev : List Event) :
    (connGatherCreds env pu s ev).result = .ok () →
    (connGatherCreds env pu s ev).state.serverId.isSome = true := by
  unfold connGatherCreds
  split
  · exact connFirstCheck_ok_serverId _ _ _ _ _ _ _
  · split
    · split
      · exact connFirstCheck_ok_serverId _ _ _ _ _ _ _
      · exact connPrompt_ok_serverId _ _ _ _
    · exact connPrompt_ok_serverId _ _ _ _

theorem connGatherCreds_ok_unlink (env : ConnectEnv) (pu : ParsedUrl)
    (s : WorkerState) (ev : List Event) :
    (connGatherCreds env pu s ev).result = .ok () →
    Event.breakerUnlink ∈ (connGatherCreds env pu s ev).events := by
  unfold connGatherCreds
  split
  · exact connFirstCheck_ok_unlink _ _ _ _ _ _ _
  · split
    · split
      · exact connFirstCheck_ok_unlink _ _ _ _ _ _ _
      · exact connPrompt_ok_unlink _ _ _ _
    · exact connPrompt_ok_unlink _ _ _ _

theorem connGatherCreds_events (env : ConnectEnv) (pu : ParsedUrl)
    (s : WorkerState) (ev : List Event)
    (hev : ∀ e ∈ ev, attachLevelEvent e = true) :
    ∀ e ∈ (connGatherCreds env pu s ev).events, attachLevelEvent e = true := by
  unfold connGatherCreds
  split
  · exact connFirstCheck_events _ _ _ _ _ _ _ hev
  · split
    · split
      · exact connFirstCheck_events _ _ _ _ _ _ _ hev
      · exact connPrompt_events _ _ _ _ hev
    · exact connPrompt_events _ _ _ _ hev

theorem ensureConnected_volNone (env : ConnectEnv) (pu : ParsedUrl)
    (s0 : WorkerState) (h : s0.volumeId = none) :
    (ensureConnected env pu s0).state.volumeId = none := by
  unfold ensureConnected
  split
  · split
    · rw [connGatherCreds_volumeId]; simp [clearSession]
    · exact h
  · rw [connGatherCreds_volumeId]; exact h

theorem ensureConnected_ok_serverId (env : ConnectEnv) (pu : ParsedUrl)
    (s0 : WorkerState) :
    (ensureConnected env pu s0).result = .ok () →
    (ensureConnected env pu s0).state.serverId.isSome = true := by
  unfold ensureConnected
  split
  · split
    · exact connGatherCreds_ok_serverId _ _ _ _
    · rename_i hsome _
      intro _
      exact hsome
  · exact connGatherCreds_ok_serverId _ _ _ _

theorem ensureConnected_events (env : ConnectEnv) (pu : ParsedUrl)
    (s0 : WorkerState) :
    ∀ e ∈ (ensureConnected env pu s0).events, attachLevelEvent e = true := by
  unfold ensureConnected
  split
  · split
    · refine connGatherCreds_events _ _ _ _ ?_
      intro e he
      simp at he
      simp [he, attachLevelEvent]
    · intro e he
      simp at he
  · refine connGatherCreds_events _ _ _ _ ?_
    intro e he
    simp at he

theorem ensureConnected_ok_unlink (env : ConnectEnv) (pu : ParsedUrl)
    (s0 : WorkerState) :
    (ensureConnected env pu s0).result = .ok () →
    Event.connectCall ∈ (ensureConnected env pu s0).events →
    Event.breakerUnlink ∈ (ensureConnected env pu s0).events := by
  unfold ensureConnected
  split
  · split
    · intro h _
      exact connGatherCreds_ok_unlink _ _ _ _ h
    · intro _ hc
      simp at hc
  · intro h _
    exact connGatherCreds_ok_unlink _ _ _ _ h

theorem ensureConnected_inv (env : ConnectEnv) (pu : ParsedUrl)
    (s0 : WorkerState) (h : sessionInv s0) :
    sessionInv (ensureConnected env pu s0).state := by
  cases hv : s0.volumeId with
  | none =>
    intro hsome
    rw [ensureConnected_volNone env pu s0 hv] at hsome
    simp at hsome
  | some v =>
    have hs := h (by simp [hv])
    unfold ensureConnected
    split
    · split
      · rename_i hsrv hne
        intro hsome
        rw [connGatherCreds_volumeId] at hsome
        simp [clearSession] at hsome
      · rename_i hsrv hne
        intro _
        exact ⟨hsrv, hs.2⟩
    · rename_i hsrv
      exact absurd hs.1 hsrv

/-!  Lemmas about volume attachment.  -/

theorem attachEvents_pair :
    ∀ e ∈ [Event.attachCall, Event.getvolidCall], attachLevelEvent e = true := by
  decide

theorem attachEvents_single :
    ∀ e ∈ [Event.attachCall], attachLevelEvent e = true := by
  decide

theorem attachLevelEvent_append {xs ys : List Event}
    (hx : ∀ e ∈ xs, attachLevelEvent e = true)
    (hy : ∀ e ∈ ys, attachLevelEvent e = true) :
    ∀ e ∈ xs ++ ys, attachLevelEvent e = true := by
  intro e he
  rcases List.mem_append.mp he with h | h
  · exact hx e h
  · exact hy e h

theorem attachReset_inv (aenv : AttachEnv) (pu : ParsedUrl)
    (s2 : WorkerState) (ev : List Event) (hvol : s2.volumeId = none)
    (hv : pu.volume ≠ "") :
    sessionInv (attachReset aenv pu s2 ev).state := by
  unfold attachReset
  split
  · rename_i e st ev2 heq
    have hn := ensureConnected_volNone aenv.reconnectEnv pu
      { s2 with serverId := none, cachedServer := "" } (by simpa using hvol)
    rw [heq] at hn
    intro hsome
    simp only at hn
    rw [hn] at hsome
    simp at hsome
  · rename_i st ev2 heq
    have hs := ensureConnected_ok_serverId aenv.reconnectEnv pu
      { s2 with serverId := none, cachedServer := "" }
    rw [heq] at hs
    have hs' : st.serverId.isSome = true := hs rfl
    have hn := ensureConnected_volNone aenv.reconnectEnv pu
      { s2 with serverId := none, cachedServer := "" } (by simpa using hvol)
    rw [heq] at hn
    simp only at hn hs'
    split
    · split
      · intro _
        exact ⟨hs', hv⟩
      · intro hsome
        simp only at hsome
        rw [hn] at hsome
        simp at hsome
    · split
      · intro _
        exact ⟨hs', hv⟩
      · intro hsome
        simp only at hsome
        rw [hn] at hsome
        simp at hsome

theorem attachReset_events (aenv : AttachEnv) (pu : ParsedUrl)
    (s2 : WorkerState) (ev : List Event)
    (hev : ∀ e ∈ ev, attachLevelEvent e = true) :
    ∀ e ∈ (attachReset aenv pu s2 ev).events, attachLevelEvent e = true := by
  unfold attachReset
  split
  · rename_i e st ev2 heq
    have h2 := ensureConnected_events aenv.reconnectEnv pu
      { s2 with serverId := none, cachedServer := "" }
    rw [heq] at h2
    exact attachLevelEvent_append hev h2
  · rename_i st ev2 heq
    have h2 := ensureConnected_events aenv.reconnectEnv pu
      { s2 with serverId := none, cachedServer := "" }
    rw [heq] at h2
    split
    · split
      · exact attachLevelEvent_append (attachLevelEvent_append hev h2)
          attachEvents_pair
      · exact attachLevelEvent_append (attachLevelEvent_append hev h2)
          attachEvents_pair
    · split
      · exact attachLevelEvent_append (attachLevelEvent_append hev h2)
          attachEvents_single
      · exact attachLevelEvent_append (attachLevelEvent_append hev h2)
          attachEvents_single

theorem attachCore_inv (aenv : AttachEnv) (pu : ParsedUrl)
    (s2 : WorkerState) (ev : List Event) (hinv : sessionInv s2)
    (hsrv : s2.serverId.isSome = true) (hv : pu.volume ≠ "") :
    sessionInv (attachCore aenv pu s2 ev).state := by
  unfold attachCore
  split
  · exact hinv
  · rename_i hvol
    have hvn : s2.volumeId = none := Option.not_isSome_iff_eq_none.mp hvol
    split
    · split
      · intro _
        exact ⟨hsrv, hv⟩
      · exact attachReset_inv aenv pu s2 _ hvn hv
    · split
      · intro _
        exact ⟨hsrv, hv⟩
      · exact hinv

theorem attachCore_events (aenv : AttachEnv) (pu : ParsedUrl)
    (s2 : WorkerState) (ev : List Event)
    (hev : ∀ e ∈ ev, attachLevelEvent e = true) :
    ∀ e ∈ (attachCore aenv pu s2 ev).events, attachLevelEvent e = true := by
  unfold attachCore
  split
  · exact hev
  · split
    · split
      · exact attachLevelEvent_append hev attachEvents_pair
      · refine attachReset_events aenv pu s2 _ ?_
        refine attachLevelEvent_append hev ?_
        decide
    · split
      · exact attachLevelEvent_append hev attachEvents_single
      · exact attachLevelEvent_append hev attachEvents_single

theorem ensureAttached_inv (env : ConnectEnv) (aenv : AttachEnv)
    (pu : ParsedUrl) (s0 : WorkerState) (h : sessionInv s0)
    (hv : pu.hasVolume = true → pu.volume ≠ "") :
    sessionInv (ensureAttached env aenv pu s0).state := by
  unfold ensureAttached
  split
  · exact h
  · rename_i hvol
    have hvol' : pu.volume ≠ "" := hv (by simpa using hvol)
    split
    · rename_i e st ev heq
      have hi := ensureConnected_inv env pu s0 h
      rw [heq] at hi
      exact hi
    · rename_i st ev heq
      have hi := ensureConnected_inv env pu s0 h
      have hs := ensureConnected_ok_serverId env pu s0
      rw [heq] at hi hs
      have hs' : st.serverId.isSome = true := hs rfl
      simp only at hi hs'
      split
      · refine attachCore_inv aenv pu _ _ ?_ hs' hvol'
        intro hsome
        simp at hsome
      · exact attachCore_inv aenv pu _ _ hi hs' hvol'

theorem ensureAttached_events (env : ConnectEnv) (aenv : AttachEnv)
    (pu : ParsedUrl) (s0 : WorkerState) :
    ∀ e ∈ (ensureAttached env aenv pu s0).events, attachLevelEvent e = true := by
  unfold ensureAttached
  split
  · intro e he
    simp at he
  · split
    · rename_i e st ev heq
      have h2 := ensureConnected_events env pu s0
      rw [heq] at h2
      exact h2
    · rename_i st ev heq
      have h2 := ensureConnected_events env pu s0
      rw [heq] at h2
      simp only at h2
      split
      · exact attachCore_events aenv pu _ _ h2
      · exact attachCore_events aenv pu _ _ h2

/-!  Lemmas about the shared recovery pattern.  -/

theorem opWithRecovery_inv (callEv : Event)
    (reestablish : WorkerState → ConnOut) (s : WorkerState)
    (r1 r2 : AfpResult) (h : sessionInv s)
    (hre : sessionInv (reestablish (clearSession s)).state) :
    sessionInv (opWithRecovery callEv reestablish s r1 r2).state := by
  unfold opWithRecovery
  split
  · split
    · rename_i e st ev2 heq
      have : (reestablish (clearSession s)).state = st := by
        rw [show (invalidateSessionState s).1 = clearSession s from rfl] at heq
        rw [heq]
      rw [this] at hre
      exact hre
    · rename_i st ev2 heq
      have : (reestablish (clearSession s)).state = st := by
        rw [show (invalidateSessionState s).1 = clearSession s from rfl] at heq
        rw [heq]
      rw [this] at hre
      exact hre
  · exact h

theorem invalidateSessionState_events (s : WorkerState) :
    ∀ e ∈ (invalidateSessionState s).2,
      e = Event.invalidate ∨ e = Event.disconnectCall := by
  intro e he
  unfold invalidateSessionState at he
  simp only [List.mem_cons] at he
  rcases he with he | he
  · exact Or.inl he
  · right
    split at he
    · simpa using he
    · simp at he

theorem opWithRecovery_events (callEv : Event)
    (reestablish : WorkerState → ConnOut) (s : WorkerState)
    (r1 r2 : AfpResult) :
    ∀ e ∈ (opWithRecovery callEv reestablish s r1 r2).events,
      e = callEv ∨ e = Event.invalidate ∨ e = Event.disconnectCall ∨
        e ∈ (reestablish (clearSession s)).events := by
  have hcl : (invalidateSessionState s).1 = clearSession s := rfl
  unfold opWithRecovery
  split
  · split
    · rename_i er st ev2 heq
      rw [hcl] at heq
      dsimp only
      refine List.forall_mem_cons.mpr ⟨Or.inl rfl, ?_⟩
      refine List.forall_mem_append.mpr ⟨?_, ?_⟩
      · intro e he
        rcases invalidateSessionState_events s e he with h | h
        · exact Or.inr (Or.inl h)
        · exact Or.inr (Or.inr (Or.inl h))
      · intro e he
        right; right; right
        rw [heq]
        exact he
    · rename_i st ev2 heq
      rw [hcl] at heq
      dsimp only
      refine List.forall_mem_cons.mpr ⟨Or.inl rfl, ?_⟩
      refine List.forall_mem_append.mpr
        ⟨List.forall_mem_append.mpr ⟨?_, ?_⟩, ?_⟩
      · intro e he
        rcases invalidateSessionState_events s e he with h | h
        · exact Or.inr (Or.inl h)
        · exact Or.inr (Or.inr (Or.inl h))
      · intro e he
        right; right; right
        rw [heq]
        exact he
      · intro e he
        simp only [List.mem_singleton] at he
        exact Or.inl he
  · intro e he
    simp only [List.mem_singleton] at he
    exact Or.inl he

/-!  Claim theorems.  -/

/-- C4: for every resource identifier the Target Decomposer yields server =
host, the first non-empty slash-separated segment as the volume (absent
when there are no segments), the remaining segments joined by '/' as the
in-volume path, and the canonical volume-root path "/" whenever a volume
is present with no further segments. -/
theorem C4_decomposition : ∀ u : Url,
    (parseAfpUrl u).server = u.host ∧
    (splitSkipEmpty u.path = [] →
      (parseAfpUrl u).hasVolume = false ∧ (parseAfpUrl u).hasPath = false ∧
      (parseAfpUrl u).path = "") ∧
    (∀ v rest, splitSkipEmpty u.path = v :: rest →
      (parseAfpUrl u).hasVolume = true ∧ (parseAfpUrl u).volume = v ∧
      (parseAfpUrl u).path = String.intercalate "/" rest ∧
      (rest = [] → (parseAfpUrl u).hasPath = false ∧
        (parseAfpUrl u).afpPath = "/") ∧
      (rest ≠ [] → (parseAfpUrl u).hasPath = true)) := by
  intro u
  refine ⟨rfl, ?_, ?_⟩
  · intro h
    simp [parseAfpUrl, h]
  · intro v rest h
    by_cases hr : rest = []
    · subst hr
      refine ⟨?_, ?_, ?_, fun _ => ⟨?_, ?_⟩, fun hc => absurd rfl hc⟩ <;>
        simp [parseAfpUrl, h, String.intercalate]
    · have hlen : (v :: rest).length > 1 := by
        cases rest with
        | nil => exact absurd rfl hr
        | cons a t => simp
      refine ⟨?_, ?_, ?_, fun hc => absurd hc hr, fun _ => ?_⟩ <;>
        simp [parseAfpUrl, h, hlen] <;>
        first
          | (intro hc; exact absurd hc hr)
          | exact List.length_pos.mpr hr

/-- C4 witness. -/
theorem C4_witness :
    (parseAfpUrl urlHVab).server = "h" ∧ (parseAfpUrl urlHVab).volume = "V" ∧
    (parseAfpUrl urlHVab).path = "a/b" ∧
    (parseAfpUrl urlHV).afpPath = "/" ∧ (parseAfpUrl urlHV).hasPath = false ∧
    (parseAfpUrl urlH).hasVolume = false := by
  have h1 := C4_decomposition urlHVab
  have h2 := C4_decomposition urlHV
  have h3 := C4_decomposition urlH
  have ha := h1.2.2 "V" ["a", "b"] (by decide)
  have hb := h2.2.2 "V" [] (by decide)
  exact ⟨h1.1, ha.2.1, ha.2.2.1,
    (hb.2.2.2.1 rfl).2, (hb.2.2.2.1 rfl).1, (h3.2.1 (by decide)).1⟩

/-- C8: the Target Decomposer fails only on an identifier with a wrong
scheme, reported as unsupported-operation (never a connection error); for
every identifier with the afp scheme it succeeds. Within the afp scheme
`parseAfpUrl` itself is total and never fails; the wrong-scheme rejection
is the KIO framework's routing, modelled from the spec. -/
theorem C8_schemeTotality : ∀ u : Url,
    (u.scheme = "afp" → decomposeTarget u = .ok (parseAfpUrl u)) ∧
    (u.scheme ≠ "afp" → decomposeTarget u = .error .errUnsupportedAction) ∧
    (∀ e, decomposeTarget u = .error e →
      u.scheme ≠ "afp" ∧ e = .errUnsupportedAction) := by
  intro u
  unfold decomposeTarget
  by_cases h : u.scheme = "afp" <;> simp [h]

/-- C8 witness. -/
theorem C8_witness :
    urlHVab.scheme = "afp" ∧
    decomposeTarget urlHVab = .ok (parseAfpUrl urlHVab) ∧
    urlBadScheme.scheme ≠ "afp" ∧
    decomposeTarget urlBadScheme = .error .errUnsupportedAction :=
  ⟨rfl, (C8_schemeTotality urlHVab).1 rfl, by decide,
   (C8_schemeTotality urlBadScheme).2.1 (by decide)⟩

/-- C1: exactly the five codes not-connected, not-attached, daemon-error,
no-server, timed-out are recoverable; on such a first result the session
is fully cleared (with a best-effort disconnect inside
`invalidateSessionState`), the required state re-established and the call
retried exactly once, any failure of the second attempt surfaced
unchanged; any other first result never triggers reconnection or a retry. -/
theorem C1_staleSessionRecovery :
    (∀ r, isRecoverableSessionError r = true ↔
      (r = .notConnected ∨ r = .notAttached ∨ r = .daemonError ∨
       r = .noServer ∨ r = .timedOut)) ∧
    (∀ s : WorkerState, (invalidateSessionState s).1 = clearSession s ∧
      (clearSession s).serverId = none ∧ (clearSession s).cachedServer = "" ∧
      (clearSession s).volumeId = none ∧ (clearSession s).cachedVolume = "" ∧
      (clearSession s).cachedUser = "" ∧ (clearSession s).cachedPass = "") ∧
    (∀ callEv re (s : WorkerState) r1 r2,
      ¬(r1 ≠ .okay ∧ isRecoverableSessionError r1 = true) →
      opWithRecovery callEv re s r1 r2 =
        { result := mapAfpError r1, state := s, events := [callEv],
          opCalls := 1 }) ∧
    (∀ callEv re (s : WorkerState) r1 r2 e, r1 ≠ .okay →
      isRecoverableSessionError r1 = true →
      (re (clearSession s)).result = .error e →
      (opWithRecovery callEv re s r1 r2).result = .error e ∧
      (opWithRecovery callEv re s r1 r2).opCalls = 1) ∧
    (∀ callEv re (s : WorkerState) r1 r2, r1 ≠ .okay →
      isRecoverableSessionError r1 = true →
      (re (clearSession s)).result = .ok () →
      (opWithRecovery callEv re s r1 r2).result = mapAfpError r2 ∧
      (opWithRecovery callEv re s r1 r2).opCalls = 2) ∧
    (∀ env aenv u (s : WorkerState) r1 r2 st ev,
      ensureAttached env aenv (parseAfpUrl u) s =
        { result := .ok (), state := st, events := ev } →
      statPathOp env aenv u s r1 r2 =
        appendEvents ev (opWithRecovery Event.statCall
          (ensureAttached env aenv (parseAfpUrl u)) st r1 r2) ∧
      ((parseAfpUrl u).hasPath = true →
        del env aenv u true s r1 r2 =
          appendEvents ev (opWithRecovery Event.unlinkCall
            (ensureAttached env aenv (parseAfpUrl u)) st r1 r2))) := by
  refine ⟨?_, ?_, ?_, ?_, ?_, ?_⟩
  · intro r
    cases r <;> simp [isRecoverableSessionError]
  · intro s
    exact ⟨rfl, rfl, rfl, rfl, rfl, rfl, rfl⟩
  · intro callEv re s r1 r2 hn
    unfold opWithRecovery
    rw [if_neg hn]
  · intro callEv re s r1 r2 e h1 h2 hre
    unfold opWithRecovery
    rw [if_pos ⟨h1, h2⟩]
    have hcl : (invalidateSessionState s).1 = clearSession s := rfl
    split
    · rename_i er st ev2 heq
      rw [hcl] at heq
      rw [heq] at hre
      simp at hre
      exact ⟨by rw [hre], rfl⟩
    · rename_i st ev2 heq
      rw [hcl] at heq
      rw [heq] at hre
      simp at hre
  · intro callEv re s r1 r2 h1 h2 hre
    unfold opWithRecovery
    rw [if_pos ⟨h1, h2⟩]
    have hcl : (invalidateSessionState s).1 = clearSession s := rfl
    split
    · rename_i er st ev2 heq
      rw [hcl] at heq
      rw [heq] at hre
      simp at hre
    · exact ⟨rfl, rfl⟩
  · intro env aenv u s r1 r2 st ev heq
    constructor
    · unfold statPathOp
      rw [heq]
    · intro hp
      unfold del
      rw [if_neg (by simp [hp]), heq]
      rfl

/-- C1 witness. -/
theorem C1_witness :
    (AfpResult.notConnected ≠ AfpResult.okay ∧
      isRecoverableSessionError .notConnected = true) ∧
    (reOk (clearSession initState)).result = .ok () ∧
    (opWithRecovery Event.statCall reOk initState .notConnected
        .okay).result = mapAfpError .okay ∧
    (opWithRecovery Event.statCall reOk initState .notConnected
        .okay).opCalls = 2 ∧
    (opWithRecovery Event.statCall reOk initState .exist .okay).opCalls = 1 := by
  have h5 := C1_staleSessionRecovery.2.2.2.2.1 Event.statCall reOk initState
    .notConnected .okay (by decide) (by decide) rfl
  have h3 := C1_staleSessionRecovery.2.2.1 Event.statCall reOk initState
    .exist .okay (by simp [isRecoverableSessionError])
  exact ⟨⟨by decide, by decide⟩, rfl, h5.1, h5.2, by rw [h3]⟩

/-- C5: deleting a volume root or server root fails with access-denied and
renaming one fails with unsupported-operation, in both cases with an empty
event trace (no underlying call, no connect, no attach); a cross-server or
cross-volume rename likewise fails with unsupported-operation before any
call. -/
theorem C5_rootRejection :
    (∀ env aenv u isFile s r1 r2, (parseAfpUrl u).hasPath = false →
      del env aenv u isFile s r1 r2 =
        { result := .error .errAccessDenied, state := s, events := [],
          opCalls := 0 }) ∧
    (∀ env aenv src dest ow s dsr r1 r2,
      ((parseAfpUrl src).hasPath = false ∨
       (parseAfpUrl dest).hasPath = false) →
      rename env aenv src dest ow s dsr r1 r2 =
        { result := .error .errUnsupportedAction, state := s, events := [],
          opCalls := 0 }) ∧
    (∀ env aenv src dest ow s dsr r1 r2,
      ((parseAfpUrl src).server ≠ (parseAfpUrl dest).server ∨
       (parseAfpUrl src).volume ≠ (parseAfpUrl dest).volume) →
      rename env aenv src dest ow s dsr r1 r2 =
        { result := .error .errUnsupportedAction, state := s, events := [],
          opCalls := 0 }) := by
  refine ⟨?_, ?_, ?_⟩
  · intro env aenv u isFile s r1 r2 h
    unfold del
    rw [if_pos (by simp [h])]
  · intro env aenv src dest ow s dsr r1 r2 h
    unfold rename
    rw [if_pos (by rcases h with h | h <;> simp [h])]
  · intro env aenv src dest ow s dsr r1 r2 h
    unfold rename
    by_cases hp : ¬(parseAfpUrl src).hasPath = true ∨
        ¬(parseAfpUrl dest).hasPath = true
    · rw [if_pos (by simpa using hp)]
    · rw [if_neg (by simpa using hp), if_pos h]

/-- C5 witness. -/
theorem C5_witness :
    (parseAfpUrl urlHV).hasPath = false ∧
    del envOk aenvOk urlHV true initState .okay .okay =
      { result := .error .errAccessDenied, state := initState, events := [],
        opCalls := 0 } ∧
    ((parseAfpUrl urlHVab).volume ≠ (parseAfpUrl urlHWab).volume) ∧
    rename envOk aenvOk urlHVab urlHWab false initState .okay .okay .okay =
      { result := .error .errUnsupportedAction, state := initState,
        events := [], opCalls := 0 } := by
  refine ⟨by decide, ?_, by decide, ?_⟩
  · exact C5_rootRejection.1 envOk aenvOk urlHV true initState .okay .okay
      (by decide)
  · exact C5_rootRejection.2.2 envOk aenvOk urlHVab urlHWab false initState
      .okay .okay .okay (Or.inr (by decide))

theorem ensureAttached_no_statCall (env : ConnectEnv) (aenv : AttachEnv)
    (pu : ParsedUrl) (s : WorkerState) :
    Event.statCall ∉ (ensureAttached env aenv pu s).events := by
  intro h
  have := ensureAttached_events env aenv pu s _ h
  simp [attachLevelEvent] at this

theorem ensureAttached_no_renameCall (env : ConnectEnv) (aenv : AttachEnv)
    (pu : ParsedUrl) (s : WorkerState) :
    Event.renameCall ∉ (ensureAttached env aenv pu s).events := by
  intro h
  have := ensureAttached_events env aenv pu s _ h
  simp [attachLevelEvent] at this

theorem opWithRecovery_rename_no_statCall (env : ConnectEnv)
    (aenv : AttachEnv) (pu : ParsedUrl) (s : WorkerState)
    (r1 r2 : AfpResult) :
    Event.statCall ∉ (opWithRecovery Event.renameCall
      (ensureAttached env aenv pu) s r1 r2).events := by
  intro h
  rcases opWithRecovery_events Event.renameCall (ensureAttached env aenv pu)
      s r1 r2 _ h with h | h | h | h
  · simp at h
  · simp at h
  · simp at h
  · exact ensureAttached_no_statCall env aenv pu _ h

/-- C10: a rename without the overwrite flag first checks the destination
with a metadata query and fails with already-exists before the rename call
is issued when the destination exists; with the overwrite flag set no
destination-existence check is performed. -/
theorem C10_renameOverwriteCheck :
    (∀ env aenv src dest s dsr r1 r2,
      Event.statCall ∉ (rename env aenv src dest true s dsr r1 r2).events) ∧
    (∀ env aenv src dest s r1 r2,
      (parseAfpUrl src).hasPath = true → (parseAfpUrl dest).hasPath = true →
      (parseAfpUrl src).server = (parseAfpUrl dest).server →
      (parseAfpUrl src).volume = (parseAfpUrl dest).volume →
      (ensureAttached env aenv (parseAfpUrl src) s).result = .ok () →
      (rename env aenv src dest false s .okay r1 r2).result =
        .error .errFileAlreadyExist ∧
      Event.renameCall ∉
        (rename env aenv src dest false s .okay r1 r2).events) ∧
    (∀ env aenv src dest s dsr r1 r2,
      (parseAfpUrl src).hasPath = true → (parseAfpUrl dest).hasPath = true →
      (parseAfpUrl src).server = (parseAfpUrl dest).server →
      (parseAfpUrl src).volume = (parseAfpUrl dest).volume →
      (ensureAttached env aenv (parseAfpUrl src) s).result = .ok () →
      dsr ≠ .okay →
      Event.statCall ∈ (rename env aenv src dest false s dsr r1 r2).events) := by
  refine ⟨?_, ?_, ?_⟩
  · intro env aenv src dest s dsr r1 r2
    unfold rename
    split
    · simp
    · split
      · simp
      · split
        · rename_i e st ev heq
          intro hmem
          dsimp only at hmem
          have hall := ensureAttached_events env aenv (parseAfpUrl src) s
          rw [heq] at hall
          have := hall _ hmem
          simp [attachLevelEvent] at this
        · rename_i st ev heq
          rw [if_neg (by simp)]
          intro hmem
          dsimp only [appendEvents] at hmem
          rcases List.mem_append.mp hmem with h | h
          · rcases List.mem_append.mp h with h | h
            · have hall := ensureAttached_events env aenv (parseAfpUrl src) s
              rw [heq] at hall
              have := hall _ h
              simp [attachLevelEvent] at this
            · simp at h
          · exact opWithRecovery_rename_no_statCall env aenv
              (parseAfpUrl src) st r1 r2 h
  · intro env aenv src dest s r1 r2 h1 h2 h3 h4 hok
    unfold rename
    rw [if_neg (by simp [h1, h2]), if_neg (by simp [h3, h4])]
    split
    · rename_i e st ev heq
      rw [heq] at hok
      simp at hok
    · rename_i st ev heq
      rw [if_pos (by simp)]
      refine ⟨rfl, ?_⟩
      intro hmem
      dsimp only at hmem
      rcases List.mem_append.mp hmem with h | h
      · have hall := ensureAttached_events env aenv (parseAfpUrl src) s
        rw [heq] at hall
        have := hall _ h
        simp [attachLevelEvent] at this
      · simp at h
  · intro env aenv src dest s dsr r1 r2 h1 h2 h3 h4 hok hd
    unfold rename
    rw [if_neg (by simp [h1, h2]), if_neg (by simp [h3, h4])]
    split
    · rename_i e st ev heq
      rw [heq] at hok
      simp at hok
    · rename_i st ev heq
      rw [if_neg (by simp [hd])]
      dsimp only [appendEvents]
      refine List.mem_append.mpr (Or.inl ?_)
      refine List.mem_append.mpr (Or.inr ?_)
      simp

/-- C10 witness. -/
theorem C10_witness :
    (parseAfpUrl urlHVab).hasPath = true ∧
    (ensureAttached envOk aenvOk (parseAfpUrl urlHVab) initState).result
      = .ok () ∧
    (rename envOk aenvOk urlHVab urlHVc false initState .okay .okay
        .okay).result = .error .errFileAlreadyExist ∧
    Event.statCall ∉
      (rename envOk aenvOk urlHVab urlHVc true initState .okay .okay
        .okay).events := by
  have hb := C10_renameOverwriteCheck.2.1 envOk aenvOk urlHVab urlHVc
    initState .okay .okay (by decide) (by decide) (by decide) (by decide) rfl
  exact ⟨by decide, rfl, hb.1,
    C10_renameOverwriteCheck.1 envOk aenvOk urlHVab urlHVc initState
      .okay .okay .okay⟩

/-- C2: while the breaker marker exists and is younger than the 30 s
cooldown, a connect attempt (no cached session, credentials available)
fails with connect-failed without any underlying connect call, at either
of the two checks; a check observing an expired marker removes it before
proceeding; and a successful run of the underlying connect also removes
the marker. -/
theorem C2_circuitBreaker :
    (∀ env pu (s : WorkerState) m, s.serverId = none → pu.username ≠ "" →
      pu.password ≠ "" → env.breakerAtFirst = some m →
      env.timeAtFirst - m < BREAKER_COOLDOWN_SECS →
      (ensureConnected env pu s).result = .error .errCannotConnect ∧
      Event.connectCall ∉ (ensureConnected env pu s).events) ∧
    (∀ env pu (s : WorkerState) m, s.serverId = none → pu.username ≠ "" →
      pu.password ≠ "" → env.breakerAtFirst = none →
      env.breakerAtSecond = some m →
      env.timeAtSecond - m < BREAKER_COOLDOWN_SECS →
      (ensureConnected env pu s).result = .error .errCannotConnect ∧
      Event.connectCall ∉ (ensureConnected env pu s).events) ∧
    (∀ env pu (s : WorkerState) m, s.serverId = none → pu.username ≠ "" →
      pu.password ≠ "" → env.breakerAtFirst = some m →
      ¬(env.timeAtFirst - m < BREAKER_COOLDOWN_SECS) →
      ∃ tl, (ensureConnected env pu s).events = Event.breakerUnlink :: tl) ∧
    (∀ env pu (s : WorkerState),
      (ensureConnected env pu s).result = .ok () →
      Event.connectCall ∈ (ensureConnected env pu s).events →
      Event.breakerUnlink ∈ (ensureConnected env pu s).events) := by
  refine ⟨?_, ?_, ?_, ?_⟩
  · intro env pu s m hsid hu hp hb hlt
    unfold ensureConnected
    rw [if_neg (by simp [hsid])]
    unfold connGatherCreds
    rw [if_pos ⟨hu, hp⟩]
    unfold connFirstCheck
    rw [hb]
    simp only
    rw [if_pos hlt]
    exact ⟨rfl, by simp⟩
  · intro env pu s m hsid hu hp hb1 hb2 hlt
    unfold ensureConnected
    rw [if_neg (by simp [hsid])]
    unfold connGatherCreds
    rw [if_pos ⟨hu, hp⟩]
    unfold connFirstCheck
    rw [hb1]
    simp only
    unfold connSecondCheck
    rw [hb2]
    simp only
    rw [if_pos hlt]
    exact ⟨rfl, by simp⟩
  · intro env pu s m hsid hu hp hb hge
    unfold ensureConnected
    rw [if_neg (by simp [hsid])]
    unfold connGatherCreds
    rw [if_pos ⟨hu, hp⟩]
    unfold connFirstCheck
    rw [hb]
    simp only
    rw [if_neg hge]
    unfold connSecondCheck
    split
    · split
      · exact ⟨[], rfl⟩
      · unfold connRunLoop
        exact ⟨_, rfl⟩
    · unfold connRunLoop
      exact ⟨_, rfl⟩
  · exact ensureConnected_ok_unlink

/-- C2 witness. -/
theorem C2_witness :
    initState.serverId = none ∧
    (parseAfpUrl urlHVab).username ≠ "" ∧
    (parseAfpUrl urlHVab).password ≠ "" ∧
    envBreakerFresh.breakerAtFirst = some 100 ∧
    envBreakerFresh.timeAtFirst - 100 < BREAKER_COOLDOWN_SECS ∧
    (ensureConnected envBreakerFresh (parseAfpUrl urlHVab) initState).result
      = .error .errCannotConnect ∧
    Event.connectCall ∉
      (ensureConnected envBreakerFresh (parseAfpUrl urlHVab)
        initState).events ∧
    (ensureConnected envOk (parseAfpUrl urlHVab) initState).result
      = .ok () ∧
    Event.connectCall ∈
      (ensureConnected envOk (parseAfpUrl urlHVab) initState).events ∧
    Event.breakerUnlink ∈
      (ensureConnected envOk (parseAfpUrl urlHVab) initState).events := by
  have ha := C2_circuitBreaker.1 envBreakerFresh (parseAfpUrl urlHVab)
    initState 100 rfl (by decide) (by decide) rfl (by decide)
  have hd := C2_circuitBreaker.2.2.2 envOk (parseAfpUrl urlHVab) initState
    rfl (by decide)
  exact ⟨rfl, by decide, by decide, rfl, by decide, ha.1, ha.2, rfl,
    by decide, hd⟩

theorem isTransientOutcome_spec (connects : Nat → AfpResult × Option Nat)
    (k : Nat) (h : isTransientOutcome (connects k) = true) :
    ¬(connResult connects k = .okay ∨
      connResult connects k = .alreadyConnected) ∧
    connResult connects k ≠ .noAuthent := by
  have hc : connResult connects k
      = effectiveRet (connects k).1 (connects k).2 := rfl
  cases hr : effectiveRet (connects k).1 (connects k).2 <;>
    rw [hc, hr] <;> simp_all [isTransientOutcome, hr]

theorem connectLoopF_transient_step (connects : Nat → AfpResult × Option Nat)
    (fuel k : Nat) (dialogs : List (Option (String × String)))
    (u p : String) (tr : Nat) (s : WorkerState) (server : String)
    (h : isTransientOutcome (connects k) = true)
    (htr : tr < MAX_CONNECT_RETRIES) :
    connectLoopF connects (fuel + 1) k dialogs u p tr s server =
      { result := (connectLoopF connects fuel (k + 1) dialogs u p (tr + 1) s
          server).result
        state := (connectLoopF connects fuel (k + 1) dialogs u p (tr + 1) s
          server).state
        events := Event.connectCall ::
          Event.sleepMs (BASE_RETRY_DELAY_MS * 2 ^ tr) ::
          (connectLoopF connects fuel (k + 1) dialogs u p (tr + 1) s
            server).events } := by
  obtain ⟨hns, hna⟩ := isTransientOutcome_spec connects k h
  simp only [connectLoopF]
  rw [if_neg hns, if_neg hna, if_pos htr]

theorem connectLoopF_transient_stop (connects : Nat → AfpResult × Option Nat)
    (fuel k : Nat) (dialogs : List (Option (String × String)))
    (u p : String) (tr : Nat) (s : WorkerState) (server : String)
    (h : isTransientOutcome (connects k) = true)
    (htr : ¬tr < MAX_CONNECT_RETRIES) :
    connectLoopF connects (fuel + 1) k dialogs u p tr s server =
      { result := .error (mapAfpConnectError (connResult connects k))
        state := s
        events := [Event.connectCall, Event.breakerWrite] } := by
  obtain ⟨hns, hna⟩ := isTransientOutcome_spec connects k h
  simp only [connectLoopF]
  rw [if_neg hns, if_neg hna, if_neg htr]

/-- C3: when every connect outcome is transient (neither a success with a
handle nor an authentication failure), the loop issues exactly four
connect calls — the initial attempt plus three retries, the k-th retry
(k = 0, 1, 2) preceded by a sleep of 500 ms times 2 to the k — then
writes the breaker marker and fails with the mapped connect error of the
last result, so the transient-failure path always terminates. -/
theorem C3_connectRetryCeiling :
    ∀ connects dialogs u p (s : WorkerState) server,
      (∀ k, isTransientOutcome (connects k) = true) →
      connectLoop connects 0 dialogs u p 0 s server =
        { result := .error (mapAfpConnectError (connResult connects 3))
          state := s
          events := [Event.connectCall, Event.sleepMs 500,
            Event.connectCall, Event.sleepMs 1000, Event.connectCall,
            Event.sleepMs 2000, Event.connectCall, Event.breakerWrite] } := by
  intro connects dialogs u p s server htr
  unfold connectLoop
  have h4 : dialogs.length * 4 + 4 = (dialogs.length * 4 + 3) + 1 := rfl
  have h3 : dialogs.length * 4 + 3 = (dialogs.length * 4 + 2) + 1 := rfl
  have h2 : dialogs.length * 4 + 2 = (dialogs.length * 4 + 1) + 1 := rfl
  have h1 : dialogs.length * 4 + 1 = (dialogs.length * 4 + 0) + 1 := rfl
  rw [h4, connectLoopF_transient_step connects _ 0 dialogs u p 0 s server
    (htr 0) (by norm_num [MAX_CONNECT_RETRIES])]
  rw [h3, connectLoopF_transient_step connects _ 1 dialogs u p 1 s server
    (htr 1) (by norm_num [MAX_CONNECT_RETRIES])]
  rw [h2, connectLoopF_transient_step connects _ 2 dialogs u p 2 s server
    (htr 2) (by norm_num [MAX_CONNECT_RETRIES])]
  rw [h1, connectLoopF_transient_stop connects _ 3 dialogs u p 3 s server
    (htr 3) (by norm_num [MAX_CONNECT_RETRIES])]
  norm_num [BASE_RETRY_DELAY_MS]

/-- C3 witness. -/
theorem C3_witness :
    (∀ k, isTransientOutcome (connectsTimeout k) = true) ∧
    connectLoop connectsTimeout 0 [] "u" "p" 0 initState "h" =
      { result := .error .errServerTimeout
        state := initState
        events := [Event.connectCall, Event.sleepMs 500,
          Event.connectCall, Event.sleepMs 1000, Event.connectCall,
          Event.sleepMs 2000, Event.connectCall, Event.breakerWrite] } := by
  refine ⟨fun k => rfl, ?_⟩
  have h := C3_connectRetryCeiling connectsTimeout [] "u" "p" initState "h"
    (fun k => rfl)
  exact h

/-- C6: a connect call reporting success or already-connected with a null
session handle is rewritten to a daemon error by the sanity check, which
makes the outcome transient (entering the retry path, never success), and
a successfully completed `ensureConnected` always leaves a non-null cached
server handle. -/
theorem C6_nullHandleSanity :
    (∀ (r : AfpResult) (sid : Option Nat),
      (r = .okay ∨ r = .alreadyConnected) → sid = none →
      effectiveRet r sid = .daemonError) ∧
    (∀ (connects : Nat → AfpResult × Option Nat) (k : Nat),
      (connects k).1 = .okay → (connects k).2 = none →
      isTransientOutcome (connects k) = true) ∧
    (∀ (connects : Nat → AfpResult × Option Nat) (fuel k : Nat)
      (dialogs : List (Option (String × String))) (u p : String) (tr : Nat)
      (s : WorkerState) (server : String),
      (connects k).1 = .okay → (connects k).2 = none →
      tr < MAX_CONNECT_RETRIES →
      connectLoopF connects (fuel + 1) k dialogs u p tr s server =
        { result := (connectLoopF connects fuel (k + 1) dialogs u p (tr + 1)
            s server).result
          state := (connectLoopF connects fuel (k + 1) dialogs u p (tr + 1)
            s server).state
          events := Event.connectCall ::
            Event.sleepMs (BASE_RETRY_DELAY_MS * 2 ^ tr) ::
            (connectLoopF connects fuel (k + 1) dialogs u p (tr + 1) s
              server).events }) ∧
    (∀ env pu (s : WorkerState),
      (ensureConnected env pu s).result = .ok () →
      (ensureConnected env pu s).state.serverId.isSome = true) := by
  refine ⟨?_, ?_, ?_, ?_⟩
  · intro r sid h hs
    simp [effectiveRet, h, hs]
  · intro connects k h1 h2
    unfold isTransientOutcome
    rw [show effectiveRet (connects k).1 (connects k).2 = .daemonError from
      by simp [effectiveRet, h1, h2]]
  · intro connects fuel k dialogs u p tr s server h1 h2 htr
    refine connectLoopF_transient_step connects fuel k dialogs u p tr s
      server ?_ htr
    unfold isTransientOutcome
    rw [show effectiveRet (connects k).1 (connects k).2 = .daemonError from
      by simp [effectiveRet, h1, h2]]
  · exact ensureConnected_ok_serverId

/-- C6 witness. -/
theorem C6_witness :
    effectiveRet .okay none = .daemonError ∧
    (ensureConnected envOk (parseAfpUrl urlHVab) initState).result
      = .ok () ∧
    (ensureConnected envOk (parseAfpUrl urlHVab)
      initState).state.serverId.isSome = true := by
  refine ⟨C6_nullHandleSanity.1 .okay none (Or.inl rfl) rfl, rfl, ?_⟩
  exact C6_nullHandleSanity.2.2.2 envOk (parseAfpUrl urlHVab) initState rfl

theorem getReadLoop_events (reads : List ReadResult) :
    ∀ e ∈ (getReadLoop reads).2.2, readLoopEvent e = true := by
  induction reads with
  | nil =>
    intro e he
    simp [getReadLoop] at he
    simp [he, readLoopEvent]
  | cons r rest ih =>
    simp only [getReadLoop]
    split
    · intro e he
      simp at he
      rcases he with he | he <;> simp [he, readLoopEvent]
    · split
      · refine List.forall_mem_cons.mpr ⟨by simp [readLoopEvent], ?_⟩
        split
        · intro e he
          simp at he
          simp [he, readLoopEvent]
        · intro e he
          simp at he
      · refine List.forall_mem_cons.mpr ⟨by simp [readLoopEvent], ?_⟩
        refine List.forall_mem_append.mpr ⟨?_, ih⟩
        split
        · intro e he
          simp at he
          simp [he, readLoopEvent]
        · intro e he
          simp at he

theorem getReadLoop_readLens (reads : List ReadResult) :
    ∀ L, Event.readCall L ∈ (getReadLoop reads).2.2 → L = READ_CHUNK := by
  intro L hm
  have := getReadLoop_events reads _ hm
  simpa [readLoopEvent] using this

theorem getReadLoopF_conforming :
    ∀ fuel n, n < fuel →
    (getReadLoop (conformingReadsF fuel n)).1 = .ok () ∧
    (getReadLoop (conformingReadsF fuel n)).2.1 = n := by
  intro fuel
  induction fuel with
  | zero => intro n hn; omega
  | succ f ih =>
    intro n hn
    by_cases h0 : n = 0
    · subst h0
      simp [conformingReadsF, getReadLoop]
    · by_cases hle : n ≤ READ_CHUNK
      · simp only [conformingReadsF, if_neg h0, if_pos hle]
        simp [getReadLoop, hle, Nat.min_eq_right hle]
      · simp only [conformingReadsF, if_neg h0, if_neg hle]
        have hrc : READ_CHUNK ≤ n := le_of_not_le hle
        have hmin : min READ_CHUNK n = READ_CHUNK := Nat.min_eq_left hrc
        have hrec := ih (n - READ_CHUNK)
          (by simp [READ_CHUNK] at *; omega)
        simp only [getReadLoop, hmin]
        rw [if_neg (by simp)]
        rw [if_neg (by simp [READ_CHUNK] at hle ⊢; omega)]
        refine ⟨hrec.1, ?_⟩
        simp only [hrec.2]
        omega

/-- C7: with a conforming read oracle on a file of N bytes, the loop
forwards chunks summing to exactly N; every read call requests a fixed
64 KiB chunk; the read loop never invalidates the session or reconnects;
a read error is surfaced through the error classifier with a close and no
recovery; and a successful `get` reports the stat size as the total-size
hint and ends its trace with the close and one empty terminator chunk. -/
theorem C7_getStreaming :
    (∀ n, (getReadLoop (conformingReads n)).1 = .ok () ∧
      (getReadLoop (conformingReads n)).2.1 = n) ∧
    (∀ reads L, Event.readCall L ∈ (getReadLoop reads).2.2 →
      L = READ_CHUNK) ∧
    (∀ reads, Event.invalidate ∉ (getReadLoop reads).2.2 ∧
      Event.connectCall ∉ (getReadLoop reads).2.2 ∧
      Event.attachCall ∉ (getReadLoop reads).2.2) ∧
    (∀ (r : ReadResult) rest, r.ret ≠ .okay →
      getReadLoop (r :: rest) =
        (mapAfpError r.ret, 0,
         [Event.readCall READ_CHUNK, Event.closeCall])) ∧
    (∀ env aenv u (s : WorkerState) sf ss N opf ops reads,
      (get env aenv u s sf ss N false opf ops reads).result = .ok () →
      Event.totalSizeHint N ∈
        (get env aenv u s sf ss N false opf ops reads).events ∧
      ∃ pre, (get env aenv u s sf ss N false opf ops reads).events =
        pre ++ [Event.closeCall, Event.dataChunk 0]) := by
  refine ⟨?_, ?_, ?_, ?_, ?_⟩
  · intro n
    exact getReadLoopF_conforming (n + 1) n (by omega)
  · intro reads L
    exact getReadLoop_readLens reads L
  · intro reads
    refine ⟨?_, ?_, ?_⟩ <;>
      (intro hm; have := getReadLoop_events reads _ hm;
       simp [readLoopEvent] at this)
  · intro r rest hr
    simp only [getReadLoop]
    rw [if_pos hr]
  · intro env aenv u s sf ss N opf ops reads
    unfold get
    split
    · intro h; simp at h
    · split
      · intro h; simp at h
      · rename_i st ev heq
        unfold getAfterAttach
        split
        · intro h; simp [appendEvents] at h
        · rename_i st1 ev1 n1 heq1
          rw [if_neg (by simp)]
          unfold getAfterOpen
          split
          · intro h; simp [appendEvents] at h
          · rename_i st2 ev2 n2 heq2
            split
            · intro h; simp [appendEvents] at h
            · rename_i total rev heq3
              intro _
              constructor
              · simp [appendEvents]
              · refine ⟨ev ++ ((ev1 ++ [Event.totalSizeHint N]) ++
                  (ev2 ++ rev)), ?_⟩
                simp [appendEvents]

/-- C7 witness. -/
theorem C7_witness :
    (getReadLoop (conformingReads 70000)).1 = .ok () ∧
    (getReadLoop (conformingReads 70000)).2.1 = 70000 ∧
    ({ ret := .timedOut, received := 0, eofFlag := false } :
        ReadResult).ret ≠ .okay ∧
    getReadLoop ({ ret := .timedOut, received := 0, eofFlag := false } ::
        ([] : List ReadResult)) =
      (mapAfpError .timedOut, 0,
       [Event.readCall READ_CHUNK, Event.closeCall]) ∧
    (get envOk aenvOk urlHVab initState .okay .okay 70000 false .okay .okay
      (conformingReads 70000)).result = .ok () ∧
    Event.totalSizeHint 70000 ∈
      (get envOk aenvOk urlHVab initState .okay .okay 70000 false .okay
        .okay (conformingReads 70000)).events := by
  have h1 := C7_getStreaming.1 70000
  have h4 := C7_getStreaming.2.2.2.1
    { ret := .timedOut, received := 0, eofFlag := false } [] (by decide)
  have h5 := C7_getStreaming.2.2.2.2 envOk aenvOk urlHVab initState .okay
    .okay 70000 .okay .okay (conformingReads 70000) rfl
  exact ⟨h1.1, h1.2, by decide, h4, rfl, h5.1⟩

/-- C9 counterexample, two parts. First, an identifier with an empty host,
a volume and a path, against an environment where every call succeeds,
leaves the worker with a non-null volume handle while the cached server
name is empty — the claimed "cached server name non-empty" does not hold.
Second, starting from a live session with a stale cached volume name and
no volume handle, the attach-reset cycle (triggered by an already-attached
report whose getvolid fails) disconnects and clears the server handle but
leaves the stale cached volume name in place — the claimed "every path
that clears or replaces the server handle also clears the volume name"
does not hold for the attach-reset cycle. -/
theorem C9_counterexample :
    ((ensureAttached envOk aenvOk (parseAfpUrl urlEmptyHost)
        initState).result = .ok () ∧
     (ensureAttached envOk aenvOk (parseAfpUrl urlEmptyHost)
        initState).state.volumeId.isSome = true ∧
     (ensureAttached envOk aenvOk (parseAfpUrl urlEmptyHost)
        initState).state.serverId.isSome = true ∧
     (ensureAttached envOk aenvOk (parseAfpUrl urlEmptyHost)
        initState).state.cachedServer = "") ∧
    (stateStaleVol.serverId.isSome = true ∧
     stateStaleVol.cachedVolume = "V" ∧
     Event.disconnectCall ∈
       (ensureAttached envOk aenvReset (parseAfpUrl urlHVab)
         stateStaleVol).events ∧
     (ensureAttached envOk aenvReset (parseAfpUrl urlHVab)
        stateStaleVol).state.serverId = none ∧
     (ensureAttached envOk aenvReset (parseAfpUrl urlHVab)
        stateStaleVol).state.cachedVolume = "V") :=
  ⟨⟨rfl, by decide, by decide, by decide⟩,
   ⟨by decide, by decide, by decide, by decide, by decide⟩⟩

/-- C9 (amended): whenever the cached volume handle is non-null, the cached
server handle is non-null and the cached volume name is non-empty (the
cached server name equals the request's host and may be empty when the
host is empty); the server-switch and stale-session-invalidation paths
clear the volume handle and volume name before proceeding; the
attach-reset cycle runs only with a null volume handle and leaves it null
on failure, but does not clear the cached volume name; the invariant is
preserved by ensureConnected, ensureAttached and the recovery
combinator. -/
theorem C9_sessionInvariant :
    (∀ u : Url, (parseAfpUrl u).hasVolume = true →
      (parseAfpUrl u).volume ≠ "") ∧
    (∀ s : WorkerState, (invalidateSessionState s).1.volumeId = none ∧
      (invalidateSessionState s).1.serverId = none ∧
      (invalidateSessionState s).1.cachedVolume = "" ∧
      (clearSession s).volumeId = none ∧
      (clearSession s).cachedVolume = "") ∧
    (∀ env pu (s : WorkerState), sessionInv s →
      sessionInv (ensureConnected env pu s).state) ∧
    (∀ env aenv pu (s : WorkerState), sessionInv s →
      (pu.hasVolume = true → pu.volume ≠ "") →
      sessionInv (ensureAttached env aenv pu s).state) ∧
    (∀ callEv re (s : WorkerState) r1 r2, sessionInv s →
      sessionInv (re (clearSession s)).state →
      sessionInv (opWithRecovery callEv re s r1 r2).state) ∧
    (∀ aenv pu (s2 : WorkerState) ev e, s2.volumeId = none →
      (attachReset aenv pu s2 ev).result = .error e →
      (attachReset aenv pu s2 ev).state.volumeId = none ∧
      (attachReset aenv pu s2 ev).state.cachedVolume = s2.cachedVolume) := by
  refine ⟨?_, ?_, ?_, ?_, ?_, ?_⟩
  · intro u h
    cases hp : splitSkipEmpty u.path with
    | nil => simp [parseAfpUrl, hp] at h
    | cons v rest =>
      have hv : v ∈ splitSkipEmpty u.path := by
        rw [hp]; exact List.mem_cons_self v rest
      have hne : v ≠ "" := by
        unfold splitSkipEmpty at hv
        have := List.of_mem_filter hv
        simpa using this
      simpa [parseAfpUrl, hp] using hne
  · intro s
    exact ⟨rfl, rfl, rfl, rfl, rfl⟩
  · exact ensureConnected_inv
  · exact ensureAttached_inv
  · exact opWithRecovery_inv
  · intro aenv pu s2 ev e hvol
    have hn := ensureConnected_volNone aenv.reconnectEnv pu
      { s2 with serverId := none, cachedServer := "" } (by simpa using hvol)
    have hcv := ensureConnected_cachedVolume_noSrv aenv.reconnectEnv pu
      { s2 with serverId := none, cachedServer := "" } rfl
    unfold attachReset
    split
    · rename_i er st ev2 heq
      rw [heq] at hn hcv
      intro _
      exact ⟨hn, hcv⟩
    · rename_i st ev2 heq
      rw [heq] at hn hcv
      split
      · split
        · intro hres
          simp at hres
        · intro _
          exact ⟨hn, hcv⟩
      · split
        · intro hres
          simp at hres
        · intro _
          exact ⟨hn, hcv⟩

/-- C9 witness. -/
theorem C9_witness :
    sessionInv initState ∧
    ((parseAfpUrl urlHVab).hasVolume = true →
      (parseAfpUrl urlHVab).volume ≠ "") ∧
    sessionInv (ensureAttached envOk aenvOk (parseAfpUrl urlHVab)
      initState).state := by
  have h1 : sessionInv initState := by
    intro h
    simp [initState] at h
  exact ⟨h1, C9_sessionInvariant.1 urlHVab,
    C9_sessionInvariant.2.2.2.1 envOk aenvOk (parseAfpUrl urlHVab) initState
      h1 (C9_sessionInvariant.1 urlHVab)⟩

end KioAfp